import Mathlib

/-!
# Verification of the D&D 5E character-sheet field-mapping core

A shallow embedding of `src/dnd_character_sheet.py`: the dataclass-based
character model, the derived-stat arithmetic (`calculate_modifier`,
`format_modifier`, `parse_proficiency_bonus`), the PDF field mapping
(`get_field_mapping`) and the dict-based (de)serialisation
(`character_from_dict`, `to_serializable`), together with theorems settling
the specification claims about them.

Modelling conventions:
* Python `int` is `Int`, `str` is `String`, `bool` is `Bool`, lists are
  `List`.
* Python floor division `//` is `Int.fdiv`.
* A Python function that can raise an exception is modelled as returning
  `Option` (`none` = a raised exception).
* A Python `dict` (parsed JSON object) is an association list in insertion
  order; item assignment replaces the value at the existing key in place.
-/

namespace DndSheet

/-- The six core ability scores (dataclass `AbilityScores`, defaults 10). -/
structure AbilityScores where
  strength : Int := 10
  dexterity : Int := 10
  constitution : Int := 10
  intelligence : Int := 10
  wisdom : Int := 10
  charisma : Int := 10
  deriving DecidableEq, Repr

/-- Saving throw proficiencies (dataclass `SavingThrows`, defaults False). -/
structure SavingThrows where
  strength : Bool := false
  dexterity : Bool := false
  constitution : Bool := false
  intelligence : Bool := false
  wisdom : Bool := false
  charisma : Bool := false
  deriving DecidableEq, Repr

/-- Skill proficiencies (dataclass `Skills`, defaults False). -/
structure Skills where
  acrobatics : Bool := false
  animal_handling : Bool := false
  arcana : Bool := false
  athletics : Bool := false
  deception : Bool := false
  history : Bool := false
  insight : Bool := false
  intimidation : Bool := false
  investigation : Bool := false
  medicine : Bool := false
  nature : Bool := false
  perception : Bool := false
  performance : Bool := false
  persuasion : Bool := false
  religion : Bool := false
  sleight_of_hand : Bool := false
  stealth : Bool := false
  survival : Bool := false
  deriving DecidableEq, Repr

/-- A single attack or spell (dataclass `Attack`). -/
structure Attack where
  name : String := ""
  attack_bonus : String := ""
  damage_type : String := ""
  deriving DecidableEq, Repr

/-- Character money (dataclass `Currency`). -/
structure Currency where
  cp : Int := 0
  sp : Int := 0
  ep : Int := 0
  gp : Int := 0
  pp : Int := 0
  deriving DecidableEq, Repr

/-- Death save successes and failures (dataclass `DeathSaves`). -/
structure DeathSaves where
  successes : Int := 0
  failures : Int := 0
  deriving DecidableEq, Repr

/-- Spell slots for a given level (dataclass `SpellSlots`). -/
structure SpellSlots where
  total : Int := 0
  expended : Int := 0
  deriving DecidableEq, Repr

/-- Page 3 spellcasting information (dataclass `Spellcasting`). -/
structure Spellcasting where
  spellcasting_class : String := ""
  spellcasting_ability : String := ""
  spell_save_dc : String := ""
  spell_attack_bonus : String := ""
  cantrips : List String := []
  level_1_slots : SpellSlots := {}
  level_1_spells : List String := []
  level_2_slots : SpellSlots := {}
  level_2_spells : List String := []
  level_3_slots : SpellSlots := {}
  level_3_spells : List String := []
  level_4_slots : SpellSlots := {}
  level_4_spells : List String := []
  level_5_slots : SpellSlots := {}
  level_5_spells : List String := []
  level_6_slots : SpellSlots := {}
  level_6_spells : List String := []
  level_7_slots : SpellSlots := {}
  level_7_spells : List String := []
  level_8_slots : SpellSlots := {}
  level_8_spells : List String := []
  level_9_slots : SpellSlots := {}
  level_9_spells : List String := []
  deriving DecidableEq, Repr

/-- Page 2 appearance information (dataclass `Appearance`). -/
structure Appearance where
  age : String := ""
  height : String := ""
  weight : String := ""
  eyes : String := ""
  skin : String := ""
  hair : String := ""
  deriving DecidableEq, Repr

/-- Complete D&D 5E character data (dataclass `Character`), fields in the
source declaration order. -/
structure Character where
  character_name : String := ""
  class_level : String := ""
  background : String := ""
  player_name : String := ""
  race : String := ""
  alignment : String := ""
  experience_points : String := ""
  ability_scores : AbilityScores := {}
  inspiration : Bool := false
  proficiency_bonus : String := ""
  saving_throws : SavingThrows := {}
  skills : Skills := {}
  passive_perception : String := ""
  armor_class : String := ""
  initiative : String := ""
  speed : String := ""
  hit_point_maximum : String := ""
  current_hit_points : String := ""
  temporary_hit_points : String := ""
  hit_dice_total : String := ""
  hit_dice : String := ""
  death_saves : DeathSaves := {}
  attacks : List Attack := []
  attacks_notes : String := ""
  currency : Currency := {}
  equipment : String := ""
  personality_traits : String := ""
  ideals : String := ""
  bonds : String := ""
  flaws : String := ""
  other_proficiencies_languages : String := ""
  features_traits : String := ""
  appearance : Appearance := {}
  character_appearance : String := ""
  character_backstory : String := ""
  allies_organizations : String := ""
  allies_organizations_name : String := ""
  additional_features_traits : String := ""
  treasure : String := ""
  spellcasting : Spellcasting := {}
  deriving DecidableEq, Repr

/-- `calculate_modifier`: ability modifier from score.  Python's `//` is
floor division, i.e. `Int.fdiv`. -/
def calculate_modifier (score : Int) : Int :=
  Int.fdiv (score - 10) 2

/-- `format_modifier`: format a modifier with a `+`/`-` sign.  Python:
`f"+{mod}" if mod >= 0 else str(mod)`. -/
def format_modifier (mod : Int) : String :=
  if 0 ≤ mod then "+" ++ toString mod else toString mod

/-- Model of the Python built-in `int(str)` restricted to strings made of an
optional single sign followed by decimal digits (the shapes that occur for
proficiency-bonus strings; surrounding whitespace and digit-group
underscores, which Python also accepts, are out of scope).  `none` models a
raised `ValueError`. -/
def decimalDigits (l : List Char) : Option Nat :=
  if l ≠ [] ∧ l.all Char.isDigit then
    some (l.foldl (fun acc c => 10 * acc + (c.toNat - 48)) 0)
  else none

/-- See `decimalDigits`: the full signed entry point modelling `int(...)`. -/
def pyInt (s : String) : Option Int :=
  match s.data with
  | '-' :: rest => (decimalDigits rest).map (fun n => -(n : Int))
  | '+' :: rest => (decimalDigits rest).map (fun n => (n : Int))
  | l => (decimalDigits l).map (fun n => (n : Int))

/-- Model of the call `bonus_str.replace("+", "")`: `str.replace` with a
one-character pattern and empty replacement deletes every occurrence of that
character, scanning left to right. -/
def removePlus : List Char → List Char
  | [] => []
  | c :: cs => if c = '+' then removePlus cs else c :: removePlus cs

/-- `parse_proficiency_bonus`: `0` for a falsy (empty) string, otherwise
`int(bonus_str.replace("+", ""))`; `none` models the `ValueError` that
`int` raises on a non-numeric remainder. -/
def parse_proficiency_bonus (bonus_str : String) : Option Int :=
  if bonus_str = "" then some 0
  else pyInt (String.mk (removePlus bonus_str.data))

/-- The fixed skill-to-ability lookup table `SKILL_ABILITIES`. -/
def SKILL_ABILITIES : List (String × String) :=
  [("acrobatics", "dexterity"),
   ("animal_handling", "wisdom"),
   ("arcana", "intelligence"),
   ("athletics", "strength"),
   ("deception", "charisma"),
   ("history", "intelligence"),
   ("insight", "wisdom"),
   ("intimidation", "charisma"),
   ("investigation", "intelligence"),
   ("medicine", "wisdom"),
   ("nature", "intelligence"),
   ("perception", "wisdom"),
   ("performance", "charisma"),
   ("persuasion", "charisma"),
   ("religion", "intelligence"),
   ("sleight_of_hand", "dexterity"),
   ("stealth", "dexterity"),
   ("survival", "wisdom")]

/-- A value stored in the form-field mapping: a plain string, or a pypdf
`NameObject` (used as the affirmative checkbox marker `NameObject("/Yes")`). -/
inductive FieldVal where
  | str (s : String)
  | nameObj (s : String)
  deriving DecidableEq, Repr

/-- The local `ability_mods` dict of `get_field_mapping`: ability name to
computed modifier. -/
def ability_mods (c : Character) : List (String × Int) :=
  [("strength", calculate_modifier c.ability_scores.strength),
   ("dexterity", calculate_modifier c.ability_scores.dexterity),
   ("constitution", calculate_modifier c.ability_scores.constitution),
   ("intelligence", calculate_modifier c.ability_scores.intelligence),
   ("wisdom", calculate_modifier c.ability_scores.wisdom),
   ("charisma", calculate_modifier c.ability_scores.charisma)]

/-- Python dict indexing `d[k]` for the string-keyed dicts of
`get_field_mapping`; every access in the source is with a key that is
present, so the default is never reached. -/
def lookupD {α : Type} (d : List (String × α)) (k : String) (dflt : α) : α :=
  (List.lookup k d).getD dflt

/-- The local `st_field_map` dict: PDF field name to (ability name,
is_proficient). -/
def st_field_map (c : Character) : List (String × String × Bool) :=
  [("ST Strength", "strength", c.saving_throws.strength),
   ("ST Dexterity", "dexterity", c.saving_throws.dexterity),
   ("ST Constitution", "constitution", c.saving_throws.constitution),
   ("ST Intelligence", "intelligence", c.saving_throws.intelligence),
   ("ST Wisdom", "wisdom", c.saving_throws.wisdom),
   ("ST Charisma", "charisma", c.saving_throws.charisma)]

/-- The local `skill_field_map` dict: PDF field name to skill attribute
name (several field names carry trailing spaces dictated by the PDF). -/
def skill_field_map : List (String × String) :=
  [("Acrobatics", "acrobatics"),
   ("Animal", "animal_handling"),
   ("Arcana", "arcana"),
   ("Athletics", "athletics"),
   ("Deception ", "deception"),
   ("History ", "history"),
   ("Insight", "insight"),
   ("Intimidation", "intimidation"),
   ("Investigation ", "investigation"),
   ("Medicine", "medicine"),
   ("Nature", "nature"),
   ("Perception ", "perception"),
   ("Performance", "performance"),
   ("Persuasion", "persuasion"),
   ("Religion", "religion"),
   ("SleightofHand", "sleight_of_hand"),
   ("Stealth ", "stealth"),
   ("Survival", "survival")]

/-- `getattr(char.skills, skill_attr)` for the attribute names appearing in
`skill_field_map`; every name used in the source is a `Skills` field, so the
catch-all is never reached. -/
def skills_getattr (s : Skills) : String → Bool
  | "acrobatics" => s.acrobatics
  | "animal_handling" => s.animal_handling
  | "arcana" => s.arcana
  | "athletics" => s.athletics
  | "deception" => s.deception
  | "history" => s.history
  | "insight" => s.insight
  | "intimidation" => s.intimidation
  | "investigation" => s.investigation
  | "medicine" => s.medicine
  | "nature" => s.nature
  | "perception" => s.perception
  | "performance" => s.performance
  | "persuasion" => s.persuasion
  | "religion" => s.religion
  | "sleight_of_hand" => s.sleight_of_hand
  | "stealth" => s.stealth
  | "survival" => s.survival
  | _ => false

/-- Part of `get_field_mapping`: the `for field_name, (ability,
is_proficient) in st_field_map.items()` loop, emitting the six saving-throw
bonus text fields. -/
def st_text_chunk (c : Character) (prof_bonus : Int) : List (String × FieldVal) :=
  (st_field_map c).map (fun p =>
    (p.1, FieldVal.str (format_modifier
      (lookupD (ability_mods c) p.2.1 0 + (if p.2.2 then prof_bonus else 0)))))

/-- Part of `get_field_mapping`: the saving-throw proficiency checkbox loop
over `st_checkbox_map`, unrolled; a field is written only when proficient. -/
def st_box_chunk (c : Character) : List (String × FieldVal) :=
  (if c.saving_throws.strength then [("Check Box 11", FieldVal.nameObj "/Yes")] else [])
  ++ (if c.saving_throws.dexterity then [("Check Box 18", FieldVal.nameObj "/Yes")] else [])
  ++ (if c.saving_throws.constitution then [("Check Box 19", FieldVal.nameObj "/Yes")] else [])
  ++ (if c.saving_throws.intelligence then [("Check Box 20", FieldVal.nameObj "/Yes")] else [])
  ++ (if c.saving_throws.wisdom then [("Check Box 21", FieldVal.nameObj "/Yes")] else [])
  ++ (if c.saving_throws.charisma then [("Check Box 22", FieldVal.nameObj "/Yes")] else [])

/-- Part of `get_field_mapping`: the `for field_name, skill_attr in
skill_field_map.items()` loop emitting the eighteen skill bonus text
fields, each through the `SKILL_ABILITIES` table. -/
def skill_text_chunk (c : Character) (prof_bonus : Int) : List (String × FieldVal) :=
  skill_field_map.map (fun p =>
    (p.1, FieldVal.str (format_modifier
      (lookupD (ability_mods c) (lookupD SKILL_ABILITIES p.2 "") 0
        + (if skills_getattr c.skills p.2 then prof_bonus else 0)))))

/-- Part of `get_field_mapping`: the skill proficiency checkbox loop over
`skill_checkbox_map`, unrolled. -/
def skill_box_chunk (c : Character) : List (String × FieldVal) :=
  (if c.skills.acrobatics then [("Check Box 23", FieldVal.nameObj "/Yes")] else [])
  ++ (if c.skills.animal_handling then [("Check Box 24", FieldVal.nameObj "/Yes")] else [])
  ++ (if c.skills.arcana then [("Check Box 25", FieldVal.nameObj "/Yes")] else [])
  ++ (if c.skills.athletics then [("Check Box 26", FieldVal.nameObj "/Yes")] else [])
  ++ (if c.skills.deception then [("Check Box 27", FieldVal.nameObj "/Yes")] else [])
  ++ (if c.skills.history then [("Check Box 28", FieldVal.nameObj "/Yes")] else [])
  ++ (if c.skills.insight then [("Check Box 29", FieldVal.nameObj "/Yes")] else [])
  ++ (if c.skills.intimidation then [("Check Box 30", FieldVal.nameObj "/Yes")] else [])
  ++ (if c.skills.investigation then [("Check Box 31", FieldVal.nameObj "/Yes")] else [])
  ++ (if c.skills.medicine then [("Check Box 32", FieldVal.nameObj "/Yes")] else [])
  ++ (if c.skills.nature then [("Check Box 33", FieldVal.nameObj "/Yes")] else [])
  ++ (if c.skills.perception then [("Check Box 34", FieldVal.nameObj "/Yes")] else [])
  ++ (if c.skills.performance then [("Check Box 35", FieldVal.nameObj "/Yes")] else [])
  ++ (if c.skills.persuasion then [("Check Box 36", FieldVal.nameObj "/Yes")] else [])
  ++ (if c.skills.religion then [("Check Box 37", FieldVal.nameObj "/Yes")] else [])
  ++ (if c.skills.sleight_of_hand then [("Check Box 38", FieldVal.nameObj "/Yes")] else [])
  ++ (if c.skills.stealth then [("Check Box 39", FieldVal.nameObj "/Yes")] else [])
  ++ (if c.skills.survival then [("Check Box 40", FieldVal.nameObj "/Yes")] else [])

/-- Part of `get_field_mapping`: the three `if len(char.attacks) > k`
blocks mapping at most the first three attacks to the weapon fields. -/
def attacks_chunk (c : Character) : List (String × FieldVal) :=
  (if 0 < c.attacks.length then
    [("Wpn Name", FieldVal.str (c.attacks.getD 0 {}).name),
     ("Wpn1 AtkBonus", FieldVal.str (c.attacks.getD 0 {}).attack_bonus),
     ("Wpn1 Damage", FieldVal.str (c.attacks.getD 0 {}).damage_type)] else [])
  ++ (if 1 < c.attacks.length then
    [("Wpn Name 2", FieldVal.str (c.attacks.getD 1 {}).name),
     ("Wpn2 AtkBonus ", FieldVal.str (c.attacks.getD 1 {}).attack_bonus),
     ("Wpn2 Damage ", FieldVal.str (c.attacks.getD 1 {}).damage_type)] else [])
  ++ (if 2 < c.attacks.length then
    [("Wpn Name 3", FieldVal.str (c.attacks.getD 2 {}).name),
     ("Wpn3 AtkBonus  ", FieldVal.str (c.attacks.getD 2 {}).attack_bonus),
     ("Wpn3 Damage ", FieldVal.str (c.attacks.getD 2 {}).damage_type)] else [])

/-- The `cantrip_fields` list of `get_field_mapping` (8 slots). -/
def cantrip_fields : List String :=
  ["Spells 1014", "Spells 1015", "Spells 1016", "Spells 1017",
   "Spells 1018", "Spells 1019", "Spells 1020", "Spells 1021"]

/-- The `level_1_spell_fields` list: `Spells 1022` .. `Spells 1034`
(13 slots). -/
def level_1_spell_fields : List String :=
  ["Spells 1022", "Spells 1023", "Spells 1024", "Spells 1025",
   "Spells 1026", "Spells 1027", "Spells 1028", "Spells 1029",
   "Spells 1030", "Spells 1031", "Spells 1032", "Spells 1033",
   "Spells 1034"]

/-- A `for i, x in enumerate(vs[:k])` loop writing `fields[names[i]] = x`:
pairs the slot names with the (already truncated) values in order. -/
def zipChunk (names : List String) (vs : List String) : List (String × FieldVal) :=
  (names.zip vs).map (fun p => (p.1, FieldVal.str p.2))

/-- One iteration of the spell-slot loop for `getattr(char.spellcasting,
f"level_{level}_slots")`: the total and expended fields (named
`f"SlotsTotal {level+18}"` and `f"SlotsRemaining {level+18}"`) are written
only when the count is truthy (non-zero). -/
def slot_fields_chunk (total_name expended_name : String) (slots : SpellSlots) :
    List (String × FieldVal) :=
  (if slots.total ≠ 0 then
    [(total_name, FieldVal.str (toString slots.total))] else [])
  ++ (if slots.expended ≠ 0 then
    [(expended_name, FieldVal.str (toString slots.expended))] else [])

/-- The `for level in range(1, 10)` spell-slot loop, unrolled with the
field numbers `level + 18` computed (level 1 -> 19, ..., level 9 -> 27). -/
def slots_chunk (c : Character) : List (String × FieldVal) :=
  slot_fields_chunk "SlotsTotal 19" "SlotsRemaining 19" c.spellcasting.level_1_slots
  ++ slot_fields_chunk "SlotsTotal 20" "SlotsRemaining 20" c.spellcasting.level_2_slots
  ++ slot_fields_chunk "SlotsTotal 21" "SlotsRemaining 21" c.spellcasting.level_3_slots
  ++ slot_fields_chunk "SlotsTotal 22" "SlotsRemaining 22" c.spellcasting.level_4_slots
  ++ slot_fields_chunk "SlotsTotal 23" "SlotsRemaining 23" c.spellcasting.level_5_slots
  ++ slot_fields_chunk "SlotsTotal 24" "SlotsRemaining 24" c.spellcasting.level_6_slots
  ++ slot_fields_chunk "SlotsTotal 25" "SlotsRemaining 25" c.spellcasting.level_7_slots
  ++ slot_fields_chunk "SlotsTotal 26" "SlotsRemaining 26" c.spellcasting.level_8_slots
  ++ slot_fields_chunk "SlotsTotal 27" "SlotsRemaining 27" c.spellcasting.level_9_slots

/-- The unconditional assignments of `get_field_mapping` up to the
`Inspiration` checkbox: header, ability scores and modifiers, and the
proficiency-bonus text field, in source order. -/
def header_chunk (c : Character) : List (String × FieldVal) :=
  [("CharacterName", FieldVal.str c.character_name),
   ("ClassLevel", FieldVal.str c.class_level),
   ("Background", FieldVal.str c.background),
   ("PlayerName", FieldVal.str c.player_name),
   ("Race ", FieldVal.str c.race),
   ("Alignment", FieldVal.str c.alignment),
   ("XP", FieldVal.str c.experience_points),
   ("STR", FieldVal.str (toString c.ability_scores.strength)),
   ("STRmod", FieldVal.str (format_modifier (calculate_modifier c.ability_scores.strength))),
   ("DEX", FieldVal.str (toString c.ability_scores.dexterity)),
   ("DEXmod ", FieldVal.str (format_modifier (calculate_modifier c.ability_scores.dexterity))),
   ("CON", FieldVal.str (toString c.ability_scores.constitution)),
   ("CONmod", FieldVal.str (format_modifier (calculate_modifier c.ability_scores.constitution))),
   ("INT", FieldVal.str (toString c.ability_scores.intelligence)),
   ("INTmod", FieldVal.str (format_modifier (calculate_modifier c.ability_scores.intelligence))),
   ("WIS", FieldVal.str (toString c.ability_scores.wisdom)),
   ("WISmod", FieldVal.str (format_modifier (calculate_modifier c.ability_scores.wisdom))),
   ("CHA", FieldVal.str (toString c.ability_scores.charisma)),
   ("CHamod", FieldVal.str (format_modifier (calculate_modifier c.ability_scores.charisma))),
   ("ProfBonus", FieldVal.str c.proficiency_bonus)]

/-- The `Inspiration` checkbox: written only when truthy, with the string
value `"Yes"` (not a `NameObject`, unlike the other checkboxes). -/
def inspiration_chunk (c : Character) : List (String × FieldVal) :=
  if c.inspiration then [("Inspiration", FieldVal.str "Yes")] else []

/-- The unconditional assignments between the skill checkboxes and the
attack blocks: passive perception and combat stats. -/
def combat_chunk (c : Character) : List (String × FieldVal) :=
  [("Passive", FieldVal.str c.passive_perception),
   ("AC", FieldVal.str c.armor_class),
   ("Initiative", FieldVal.str c.initiative),
   ("Speed", FieldVal.str c.speed),
   ("HPMax", FieldVal.str c.hit_point_maximum),
   ("HPCurrent", FieldVal.str c.current_hit_points),
   ("HPTemp", FieldVal.str c.temporary_hit_points),
   ("HDTotal", FieldVal.str c.hit_dice_total),
   ("HD", FieldVal.str c.hit_dice)]

/-- The unconditional assignments after the attack blocks through the page-3
spellcasting header: notes, currency (a denomination renders as `""` when
falsy, i.e. zero, and as `str(n)` otherwise), equipment, personality, page 2
and the spellcasting header fields. -/
def tail_chunk (c : Character) : List (String × FieldVal) :=
  [("AttacksSpellcasting", FieldVal.str c.attacks_notes),
   ("CP", FieldVal.str (if c.currency.cp ≠ 0 then toString c.currency.cp else "")),
   ("SP", FieldVal.str (if c.currency.sp ≠ 0 then toString c.currency.sp else "")),
   ("EP", FieldVal.str (if c.currency.ep ≠ 0 then toString c.currency.ep else "")),
   ("GP", FieldVal.str (if c.currency.gp ≠ 0 then toString c.currency.gp else "")),
   ("PP", FieldVal.str (if c.currency.pp ≠ 0 then toString c.currency.pp else "")),
   ("Equipment", FieldVal.str c.equipment),
   ("PersonalityTraits ", FieldVal.str c.personality_traits),
   ("Ideals", FieldVal.str c.ideals),
   ("Bonds", FieldVal.str c.bonds),
   ("Flaws", FieldVal.str c.flaws),
   ("ProficienciesLang", FieldVal.str c.other_proficiencies_languages),
   ("Features and Traits", FieldVal.str c.features_traits),
   ("CharacterName 2", FieldVal.str c.character_name),
   ("Age", FieldVal.str c.appearance.age),
   ("Height", FieldVal.str c.appearance.height),
   ("Weight", FieldVal.str c.appearance.weight),
   ("Eyes", FieldVal.str c.appearance.eyes),
   ("Skin", FieldVal.str c.appearance.skin),
   ("Hair", FieldVal.str c.appearance.hair),
   ("Backstory", FieldVal.str c.character_backstory),
   ("Allies", FieldVal.str c.allies_organizations),
   ("FactionName", FieldVal.str c.allies_organizations_name),
   ("Feat+Traits", FieldVal.str c.additional_features_traits),
   ("Treasure", FieldVal.str c.treasure),
   ("Spellcasting Class 2", FieldVal.str c.spellcasting.spellcasting_class),
   ("SpellcastingAbility 2", FieldVal.str c.spellcasting.spellcasting_ability),
   ("SpellSaveDC  2", FieldVal.str c.spellcasting.spell_save_dc),
   ("SpellAtkBonus 2", FieldVal.str c.spellcasting.spell_attack_bonus)]

/-- The body of `get_field_mapping` once `prof_bonus` has been parsed: all
field assignments of the source, in source order. -/
def field_mapping_core (c : Character) (prof_bonus : Int) : List (String × FieldVal) :=
  header_chunk c
  ++ inspiration_chunk c
  ++ st_text_chunk c prof_bonus
  ++ st_box_chunk c
  ++ skill_text_chunk c prof_bonus
  ++ skill_box_chunk c
  ++ combat_chunk c
  ++ attacks_chunk c
  ++ tail_chunk c
  ++ zipChunk cantrip_fields (c.spellcasting.cantrips.take 8)
  ++ slots_chunk c
  ++ zipChunk level_1_spell_fields (c.spellcasting.level_1_spells.take 13)

/-- `get_field_mapping`: `none` models the `ValueError` that would escape
from `parse_proficiency_bonus` (raised before anything is observable, since
the `fields` dict is local until returned). -/
def get_field_mapping (char : Character) : Option (List (String × FieldVal)) :=
  (parse_proficiency_bonus char.proficiency_bonus).map
    (fun prof_bonus => field_mapping_core char prof_bonus)

/-- `get_example_character`: the demonstration character from the source. -/
def get_example_character : Character :=
  { character_name := "Thorn Ironbark"
    class_level := "Fighter 5"
    background := "Soldier"
    player_name := "Example Player"
    race := "Half-Orc"
    alignment := "Lawful Good"
    experience_points := "6500"
    ability_scores :=
      { strength := 18, dexterity := 14, constitution := 16,
        intelligence := 10, wisdom := 12, charisma := 8 }
    inspiration := false
    proficiency_bonus := "+3"
    saving_throws := { strength := true, constitution := true }
    skills := { athletics := true, intimidation := true,
                perception := true, survival := true }
    passive_perception := "14"
    armor_class := "18"
    initiative := "+2"
    speed := "30 ft"
    hit_point_maximum := "44"
    current_hit_points := "44"
    temporary_hit_points := ""
    hit_dice_total := "5d10"
    hit_dice := "5d10"
    death_saves := { successes := 0, failures := 0 }
    attacks :=
      [{ name := "Greatsword", attack_bonus := "+7", damage_type := "2d6+4 slashing" },
       { name := "Javelin", attack_bonus := "+7", damage_type := "1d6+4 piercing" },
       { name := "Handaxe", attack_bonus := "+7", damage_type := "1d6+4 slashing" }]
    attacks_notes := "Extra Attack: Can attack twice per Attack action.\nSecond Wind: Regain 1d10+5 HP as bonus action (1/short rest)."
    currency := { cp := 0, sp := 15, ep := 0, gp := 75, pp := 0 }
    equipment := "Greatsword\nChain mail\n2 Handaxes\n4 Javelins\nExplorer's pack\nInsignia of rank\nTrophy from fallen enemy\nDice set\nCommon clothes"
    personality_traits := "I face problems head-on. A simple, direct solution is the best path to success."
    ideals := "Responsibility. I do what I must and obey just authority."
    bonds := "Those who fight beside me are worth dying for."
    flaws := "I made a terrible mistake in battle that cost many lives—I would do anything to keep that secret."
    other_proficiencies_languages := "Languages: Common, Orc\n\nArmor: All armor, shields\nWeapons: Simple weapons, martial weapons\nTools: Dice set, vehicles (land)"
    features_traits := "Relentless Endurance\nSavage Attacks\nFighting Style: Great Weapon Fighting\nSecond Wind\nAction Surge (1 use)\nExtra Attack"
    appearance :=
      { age := "28", height := "6'4\"", weight := "250 lbs",
        eyes := "Yellow", skin := "Gray-green", hair := "Black" }
    character_appearance := "Massive half-orc with prominent tusks and numerous battle scars. Wears well-maintained chain mail with a military insignia."
    character_backstory := "Thorn served in the king's army for a decade before a catastrophic battle changed everything..."
    allies_organizations := "The Iron Legion (former military unit)"
    allies_organizations_name := "The Iron Legion"
    additional_features_traits := ""
    treasure := "A lucky gold coin from my first battle" }

/-! ## Claim C2: the ability-modifier formula -/

/-- **C2.** For every integer ability score `s`, `calculate_modifier s` is
`⌊(s - 10) / 2⌋` with true floor (round toward negative infinity) division;
in particular `calculate_modifier 7 = -2` and `calculate_modifier 1 = -5`,
and the identity holds on all of `1..30`. -/
theorem calculate_modifier_is_floor :
    (∀ s : Int, calculate_modifier s = ⌊((s : ℚ) - 10) / 2⌋)
    ∧ calculate_modifier 7 = -2 ∧ calculate_modifier 1 = -5 := by
  refine ⟨fun s => ?_, by decide, by decide⟩
  have h1 : ((s : ℚ) - 10) = (((s - 10 : ℤ) : ℚ)) := by push_cast; ring
  have h2 : ((2 : ℚ)) = (((2 : ℕ) : ℚ)) := by norm_num
  rw [h1, h2, Rat.floor_intCast_div_natCast]
  unfold calculate_modifier
  rw [Int.fdiv_eq_ediv _ (by norm_num)]
  rfl

/-! ## Claim C6: proficiency-bonus parsing -/

/-- Strip one leading `"+"`, as the claim describes the parse. -/
def strip_one_leading_plus (s : String) : String :=
  match s.data with
  | '+' :: rest => String.mk rest
  | _ => s

/-- Modelled from the spec: `parse_proficiency_bonus` as the claim states
it — strip a *leading* `"+"` only, then parse the remainder with `int`,
with empty input yielding 0. -/
def parse_proficiency_bonus_claimed (bonus_str : String) : Option Int :=
  if bonus_str = "" then some 0
  else pyInt (strip_one_leading_plus bonus_str)

/-- **C6 counterexample.** On `"1+2"` the code removes *every* `'+'` and
returns 12, while the claimed strip-a-leading-plus parse leaves `"1+2"`,
which is not an integer literal, so the claimed behaviour errors; the claim
is false as a statement about every input string. -/
theorem parse_proficiency_bonus_not_leading_only :
    parse_proficiency_bonus "1+2" = some 12
    ∧ parse_proficiency_bonus_claimed "1+2" = none
    ∧ parse_proficiency_bonus "1+2" ≠ parse_proficiency_bonus_claimed "1+2" := by
  refine ⟨by decide, by decide, by decide⟩

/-- **C6 (amended).** `parse_proficiency_bonus` removes every `'+'`
character (not only a leading one) and parses the remainder as an integer;
empty input yields 0; `"+3"`, `"+0"`, `""` yield 3, 0, 0. -/
theorem parse_proficiency_bonus_spec :
    (∀ s : String, parse_proficiency_bonus s =
      if s = "" then some 0
      else pyInt (String.mk (s.data.filter (fun c => c ≠ '+'))))
    ∧ parse_proficiency_bonus "+3" = some 3
    ∧ parse_proficiency_bonus "+0" = some 0
    ∧ parse_proficiency_bonus "" = some 0 := by
  have hrm : ∀ l : List Char, removePlus l = l.filter (fun c => c ≠ '+') := by
    intro l
    induction l with
    | nil => rfl
    | cons c cs ih =>
      by_cases hc : c = '+'
      · simp [removePlus, hc, ih]
      · simp [removePlus, hc, ih]
  refine ⟨fun s => ?_, by decide, by decide, by decide⟩
  unfold parse_proficiency_bonus
  rw [hrm]

/-! ## Helper lemmas about membership in the mapping -/

theorem mem_ite_nil {α : Type} {p : Prop} [Decidable p] (a : α) (l : List α) :
    a ∈ (if p then l else []) ↔ p ∧ a ∈ l := by
  by_cases h : p <;> simp [h]

theorem ite_chunk_keys {α β : Type} {p : Prop} [Decidable p] (l : List (α × β)) :
    List.Sublist ((if p then l else []).map Prod.fst) (l.map Prod.fst) := by
  by_cases h : p <;> simp [h]

theorem zipChunk_keys (names : List String) (vs : List String) :
    List.Sublist ((zipChunk names vs).map Prod.fst) names := by
  induction names generalizing vs with
  | nil => simp [zipChunk]
  | cons n ns ih =>
    cases vs with
    | nil => simp [zipChunk]
    | cons v vs2 =>
      simpa [zipChunk] using (ih vs2).cons₂ n

theorem not_mem_of_keys_sublist {p : String × FieldVal}
    {l : List (String × FieldVal)} {ns : List String}
    (hsub : List.Sublist (l.map Prod.fst) ns) (h : p.1 ∉ ns) : p ∉ l := by
  intro hp
  exact h (hsub.subset (List.mem_map_of_mem Prod.fst hp))

theorem mem_zipChunk_false (n : String) (v : FieldVal)
    (names vs : List String) (h : ¬ n ∈ names) :
    ((n, v) ∈ zipChunk names vs) ↔ False := by
  simp only [iff_false]
  exact not_mem_of_keys_sublist (zipChunk_keys names vs) h

/-- The field names of the spell-slot loop (levels 1-9). -/
def slots_names : List String :=
  ["SlotsTotal 19", "SlotsRemaining 19", "SlotsTotal 20", "SlotsRemaining 20",
   "SlotsTotal 21", "SlotsRemaining 21", "SlotsTotal 22", "SlotsRemaining 22",
   "SlotsTotal 23", "SlotsRemaining 23", "SlotsTotal 24", "SlotsRemaining 24",
   "SlotsTotal 25", "SlotsRemaining 25", "SlotsTotal 26", "SlotsRemaining 26",
   "SlotsTotal 27", "SlotsRemaining 27"]

theorem slot_fields_chunk_keys (tn en : String) (s : SpellSlots) :
    List.Sublist ((slot_fields_chunk tn en s).map Prod.fst) [tn, en] := by
  unfold slot_fields_chunk
  rw [List.map_append]
  exact (ite_chunk_keys _).append (ite_chunk_keys _)

theorem slots_chunk_keys (c : Character) :
    List.Sublist ((slots_chunk c).map Prod.fst) slots_names := by
  unfold slots_chunk
  simp only [List.map_append]
  exact ((((((((slot_fields_chunk_keys _ _ _).append
    (slot_fields_chunk_keys _ _ _)).append
    (slot_fields_chunk_keys _ _ _)).append
    (slot_fields_chunk_keys _ _ _)).append
    (slot_fields_chunk_keys _ _ _)).append
    (slot_fields_chunk_keys _ _ _)).append
    (slot_fields_chunk_keys _ _ _)).append
    (slot_fields_chunk_keys _ _ _)).append
    (slot_fields_chunk_keys _ _ _)

theorem mem_slots_chunk_false (n : String) (v : FieldVal) (c : Character)
    (h : ¬ n ∈ slots_names) :
    ((n, v) ∈ slots_chunk c) ↔ False := by
  simp only [iff_false]
  exact not_mem_of_keys_sublist (slots_chunk_keys c) h

/-- Every field name the mapper can ever emit, in emission order (each
conditional or truncated chunk contributes its full slate of names). -/
def all_field_names : List String :=
  ["CharacterName", "ClassLevel", "Background", "PlayerName", "Race ",
   "Alignment", "XP", "STR", "STRmod", "DEX", "DEXmod ", "CON", "CONmod",
   "INT", "INTmod", "WIS", "WISmod", "CHA", "CHamod", "ProfBonus",
   "Inspiration",
   "ST Strength", "ST Dexterity", "ST Constitution", "ST Intelligence",
   "ST Wisdom", "ST Charisma",
   "Check Box 11", "Check Box 18", "Check Box 19", "Check Box 20",
   "Check Box 21", "Check Box 22",
   "Acrobatics", "Animal", "Arcana", "Athletics", "Deception ", "History ",
   "Insight", "Intimidation", "Investigation ", "Medicine", "Nature",
   "Perception ", "Performance", "Persuasion", "Religion", "SleightofHand",
   "Stealth ", "Survival",
   "Check Box 23", "Check Box 24", "Check Box 25", "Check Box 26",
   "Check Box 27", "Check Box 28", "Check Box 29", "Check Box 30",
   "Check Box 31", "Check Box 32", "Check Box 33", "Check Box 34",
   "Check Box 35", "Check Box 36", "Check Box 37", "Check Box 38",
   "Check Box 39", "Check Box 40",
   "Passive", "AC", "Initiative", "Speed", "HPMax", "HPCurrent", "HPTemp",
   "HDTotal", "HD",
   "Wpn Name", "Wpn1 AtkBonus", "Wpn1 Damage",
   "Wpn Name 2", "Wpn2 AtkBonus ", "Wpn2 Damage ",
   "Wpn Name 3", "Wpn3 AtkBonus  ", "Wpn3 Damage ",
   "AttacksSpellcasting", "CP", "SP", "EP", "GP", "PP", "Equipment",
   "PersonalityTraits ", "Ideals", "Bonds", "Flaws", "ProficienciesLang",
   "Features and Traits", "CharacterName 2", "Age", "Height", "Weight",
   "Eyes", "Skin", "Hair", "Backstory", "Allies", "FactionName",
   "Feat+Traits", "Treasure", "Spellcasting Class 2",
   "SpellcastingAbility 2", "SpellSaveDC  2", "SpellAtkBonus 2",
   "Spells 1014", "Spells 1015", "Spells 1016", "Spells 1017",
   "Spells 1018", "Spells 1019", "Spells 1020", "Spells 1021",
   "SlotsTotal 19", "SlotsRemaining 19", "SlotsTotal 20", "SlotsRemaining 20",
   "SlotsTotal 21", "SlotsRemaining 21", "SlotsTotal 22", "SlotsRemaining 22",
   "SlotsTotal 23", "SlotsRemaining 23", "SlotsTotal 24", "SlotsRemaining 24",
   "SlotsTotal 25", "SlotsRemaining 25", "SlotsTotal 26", "SlotsRemaining 26",
   "SlotsTotal 27", "SlotsRemaining 27",
   "Spells 1022", "Spells 1023", "Spells 1024", "Spells 1025",
   "Spells 1026", "Spells 1027", "Spells 1028", "Spells 1029",
   "Spells 1030", "Spells 1031", "Spells 1032", "Spells 1033",
   "Spells 1034"]

/-- The names of the unconditional header/ability assignments. -/
def header_names : List String :=
  ["CharacterName", "ClassLevel", "Background", "PlayerName", "Race ",
   "Alignment", "XP", "STR", "STRmod", "DEX", "DEXmod ", "CON", "CONmod",
   "INT", "INTmod", "WIS", "WISmod", "CHA", "CHamod", "ProfBonus"]

/-- The names of the saving-throw bonus text fields. -/
def st_text_names : List String :=
  ["ST Strength", "ST Dexterity", "ST Constitution", "ST Intelligence",
   "ST Wisdom", "ST Charisma"]

/-- The names of the saving-throw proficiency checkboxes. -/
def st_box_names : List String :=
  ["Check Box 11", "Check Box 18", "Check Box 19", "Check Box 20",
   "Check Box 21", "Check Box 22"]

/-- The names of the skill bonus text fields. -/
def skill_text_names : List String :=
  ["Acrobatics", "Animal", "Arcana", "Athletics", "Deception ", "History ",
   "Insight", "Intimidation", "Investigation ", "Medicine", "Nature",
   "Perception ", "Performance", "Persuasion", "Religion", "SleightofHand",
   "Stealth ", "Survival"]

/-- The names of the skill proficiency checkboxes. -/
def skill_box_names : List String :=
  ["Check Box 23", "Check Box 24", "Check Box 25", "Check Box 26",
   "Check Box 27", "Check Box 28", "Check Box 29", "Check Box 30",
   "Check Box 31", "Check Box 32", "Check Box 33", "Check Box 34",
   "Check Box 35", "Check Box 36", "Check Box 37", "Check Box 38",
   "Check Box 39", "Check Box 40"]

/-- The names of the combat-stat text fields. -/
def combat_names : List String :=
  ["Passive", "AC", "Initiative", "Speed", "HPMax", "HPCurrent", "HPTemp",
   "HDTotal", "HD"]

/-- The names of the three weapon-attack slots. -/
def attacks_names : List String :=
  ["Wpn Name", "Wpn1 AtkBonus", "Wpn1 Damage",
   "Wpn Name 2", "Wpn2 AtkBonus ", "Wpn2 Damage ",
   "Wpn Name 3", "Wpn3 AtkBonus  ", "Wpn3 Damage "]

/-- The names of the remaining unconditional text fields (notes, currency,
equipment, personality, page 2, spellcasting header). -/
def tail_names : List String :=
  ["AttacksSpellcasting", "CP", "SP", "EP", "GP", "PP", "Equipment",
   "PersonalityTraits ", "Ideals", "Bonds", "Flaws", "ProficienciesLang",
   "Features and Traits", "CharacterName 2", "Age", "Height", "Weight",
   "Eyes", "Skin", "Hair", "Backstory", "Allies", "FactionName",
   "Feat+Traits", "Treasure", "Spellcasting Class 2",
   "SpellcastingAbility 2", "SpellSaveDC  2", "SpellAtkBonus 2"]

theorem header_chunk_keys (c : Character) :
    List.Sublist ((header_chunk c).map Prod.fst) header_names := by
  have h : (header_chunk c).map Prod.fst = header_names := by
    simp [header_chunk, header_names]
  rw [h]

theorem inspiration_chunk_keys (c : Character) :
    List.Sublist ((inspiration_chunk c).map Prod.fst) ["Inspiration"] := by
  unfold inspiration_chunk
  exact ite_chunk_keys _

theorem st_text_chunk_keys (c : Character) (pb : Int) :
    List.Sublist ((st_text_chunk c pb).map Prod.fst) st_text_names := by
  have h : (st_text_chunk c pb).map Prod.fst = st_text_names := by
    simp [st_text_chunk, st_field_map, st_text_names]
  rw [h]

theorem st_box_chunk_keys (c : Character) :
    List.Sublist ((st_box_chunk c).map Prod.fst) st_box_names := by
  unfold st_box_chunk st_box_names
  simp only [List.map_append]
  exact (((((ite_chunk_keys _).append (ite_chunk_keys _)).append
    (ite_chunk_keys _)).append (ite_chunk_keys _)).append
    (ite_chunk_keys _)).append (ite_chunk_keys _)

theorem skill_text_chunk_keys (c : Character) (pb : Int) :
    List.Sublist ((skill_text_chunk c pb).map Prod.fst) skill_text_names := by
  have h : (skill_text_chunk c pb).map Prod.fst = skill_text_names := by
    simp [skill_text_chunk, skill_field_map, skill_text_names]
  rw [h]

theorem skill_box_chunk_keys (c : Character) :
    List.Sublist ((skill_box_chunk c).map Prod.fst) skill_box_names := by
  unfold skill_box_chunk skill_box_names
  simp only [List.map_append]
  exact (((((((((((((((((ite_chunk_keys _).append (ite_chunk_keys _)).append
    (ite_chunk_keys _)).append (ite_chunk_keys _)).append
    (ite_chunk_keys _)).append (ite_chunk_keys _)).append
    (ite_chunk_keys _)).append (ite_chunk_keys _)).append
    (ite_chunk_keys _)).append (ite_chunk_keys _)).append
    (ite_chunk_keys _)).append (ite_chunk_keys _)).append
    (ite_chunk_keys _)).append (ite_chunk_keys _)).append
    (ite_chunk_keys _)).append (ite_chunk_keys _)).append
    (ite_chunk_keys _)).append (ite_chunk_keys _)

theorem combat_chunk_keys (c : Character) :
    List.Sublist ((combat_chunk c).map Prod.fst) combat_names := by
  have h : (combat_chunk c).map Prod.fst = combat_names := by
    simp [combat_chunk, combat_names]
  rw [h]

theorem attacks_chunk_keys (c : Character) :
    List.Sublist ((attacks_chunk c).map Prod.fst) attacks_names := by
  unfold attacks_chunk attacks_names
  simp only [List.map_append]
  exact ((ite_chunk_keys _).append (ite_chunk_keys _)).append
    (ite_chunk_keys _)

theorem tail_chunk_keys (c : Character) :
    List.Sublist ((tail_chunk c).map Prod.fst) tail_names := by
  have h : (tail_chunk c).map Prod.fst = tail_names := by
    simp [tail_chunk, tail_names]
  rw [h]

theorem core_keys_sublist (c : Character) (pb : Int) :
    List.Sublist ((field_mapping_core c pb).map Prod.fst) all_field_names := by
  unfold field_mapping_core
  simp only [List.map_append]
  exact (((((((((((header_chunk_keys c).append (inspiration_chunk_keys c)).append
    (st_text_chunk_keys c pb)).append (st_box_chunk_keys c)).append
    (skill_text_chunk_keys c pb)).append (skill_box_chunk_keys c)).append
    (combat_chunk_keys c)).append (attacks_chunk_keys c)).append
    (tail_chunk_keys c)).append
    (zipChunk_keys cantrip_fields (c.spellcasting.cantrips.take 8))).append
    (slots_chunk_keys c)).append
    (zipChunk_keys level_1_spell_fields (c.spellcasting.level_1_spells.take 13))

set_option maxRecDepth 8000 in
theorem all_field_names_nodup : all_field_names.Nodup := by
  decide

theorem core_keys_nodup (c : Character) (pb : Int) :
    ((field_mapping_core c pb).map Prod.fst).Nodup :=
  all_field_names_nodup.sublist (core_keys_sublist c pb)

/-- Membership in the whole mapping splits over its twelve chunks. -/
theorem mem_core_iff (c : Character) (pb : Int) (p : String × FieldVal) :
    p ∈ field_mapping_core c pb ↔
      p ∈ header_chunk c ∨ p ∈ inspiration_chunk c ∨ p ∈ st_text_chunk c pb
      ∨ p ∈ st_box_chunk c ∨ p ∈ skill_text_chunk c pb ∨ p ∈ skill_box_chunk c
      ∨ p ∈ combat_chunk c ∨ p ∈ attacks_chunk c ∨ p ∈ tail_chunk c
      ∨ p ∈ zipChunk cantrip_fields (c.spellcasting.cantrips.take 8)
      ∨ p ∈ slots_chunk c
      ∨ p ∈ zipChunk level_1_spell_fields (c.spellcasting.level_1_spells.take 13) := by
  simp only [field_mapping_core, List.mem_append, or_assoc]

theorem chunk_not_mem {p : String × FieldVal} {l : List (String × FieldVal)}
    {ns ms : List String} (hsub : List.Sublist (l.map Prod.fst) ms)
    (hd : ∀ x ∈ ns, x ∉ ms) (hp : p.1 ∈ ns) : p ∉ l :=
  not_mem_of_keys_sublist hsub (hd _ hp)


/-- A field named like the inspiration checkbox can only live in its own chunk. -/
theorem mem_core_iff_inspiration (c : Character) (pb : Int)
    (n : String) (v : FieldVal) (hp : n ∈ ["Inspiration"]) :
    (n, v) ∈ field_mapping_core c pb ↔ (n, v) ∈ inspiration_chunk c := by
  rw [mem_core_iff]
  constructor
  · rintro (h|h|h|h|h|h|h|h|h|h|h|h)
    · exact absurd h (chunk_not_mem (header_chunk_keys c) (by decide) hp)
    · exact h
    · exact absurd h (chunk_not_mem (st_text_chunk_keys c pb) (by decide) hp)
    · exact absurd h (chunk_not_mem (st_box_chunk_keys c) (by decide) hp)
    · exact absurd h (chunk_not_mem (skill_text_chunk_keys c pb) (by decide) hp)
    · exact absurd h (chunk_not_mem (skill_box_chunk_keys c) (by decide) hp)
    · exact absurd h (chunk_not_mem (combat_chunk_keys c) (by decide) hp)
    · exact absurd h (chunk_not_mem (attacks_chunk_keys c) (by decide) hp)
    · exact absurd h (chunk_not_mem (tail_chunk_keys c) (by decide) hp)
    · exact absurd h (chunk_not_mem (zipChunk_keys cantrip_fields (c.spellcasting.cantrips.take 8)) (by decide) hp)
    · exact absurd h (chunk_not_mem (slots_chunk_keys c) (by decide) hp)
    · exact absurd h (chunk_not_mem (zipChunk_keys level_1_spell_fields (c.spellcasting.level_1_spells.take 13)) (by decide) hp)
  · exact fun h => Or.inr (Or.inl h)

/-- A field named like a saving-throw bonus text field can only live in its own chunk. -/
theorem mem_core_iff_st_text (c : Character) (pb : Int)
    (n : String) (v : FieldVal) (hp : n ∈ st_text_names) :
    (n, v) ∈ field_mapping_core c pb ↔ (n, v) ∈ st_text_chunk c pb := by
  rw [mem_core_iff]
  constructor
  · rintro (h|h|h|h|h|h|h|h|h|h|h|h)
    · exact absurd h (chunk_not_mem (header_chunk_keys c) (by decide) hp)
    · exact absurd h (chunk_not_mem (inspiration_chunk_keys c) (by decide) hp)
    · exact h
    · exact absurd h (chunk_not_mem (st_box_chunk_keys c) (by decide) hp)
    · exact absurd h (chunk_not_mem (skill_text_chunk_keys c pb) (by decide) hp)
    · exact absurd h (chunk_not_mem (skill_box_chunk_keys c) (by decide) hp)
    · exact absurd h (chunk_not_mem (combat_chunk_keys c) (by decide) hp)
    · exact absurd h (chunk_not_mem (attacks_chunk_keys c) (by decide) hp)
    · exact absurd h (chunk_not_mem (tail_chunk_keys c) (by decide) hp)
    · exact absurd h (chunk_not_mem (zipChunk_keys cantrip_fields (c.spellcasting.cantrips.take 8)) (by decide) hp)
    · exact absurd h (chunk_not_mem (slots_chunk_keys c) (by decide) hp)
    · exact absurd h (chunk_not_mem (zipChunk_keys level_1_spell_fields (c.spellcasting.level_1_spells.take 13)) (by decide) hp)
  · exact fun h => Or.inr (Or.inr (Or.inl h))

/-- A field named like a saving-throw checkbox can only live in its own chunk. -/
theorem mem_core_iff_st_box (c : Character) (pb : Int)
    (n : String) (v : FieldVal) (hp : n ∈ st_box_names) :
    (n, v) ∈ field_mapping_core c pb ↔ (n, v) ∈ st_box_chunk c := by
  rw [mem_core_iff]
  constructor
  · rintro (h|h|h|h|h|h|h|h|h|h|h|h)
    · exact absurd h (chunk_not_mem (header_chunk_keys c) (by decide) hp)
    · exact absurd h (chunk_not_mem (inspiration_chunk_keys c) (by decide) hp)
    · exact absurd h (chunk_not_mem (st_text_chunk_keys c pb) (by decide) hp)
    · exact h
    · exact absurd h (chunk_not_mem (skill_text_chunk_keys c pb) (by decide) hp)
    · exact absurd h (chunk_not_mem (skill_box_chunk_keys c) (by decide) hp)
    · exact absurd h (chunk_not_mem (combat_chunk_keys c) (by decide) hp)
    · exact absurd h (chunk_not_mem (attacks_chunk_keys c) (by decide) hp)
    · exact absurd h (chunk_not_mem (tail_chunk_keys c) (by decide) hp)
    · exact absurd h (chunk_not_mem (zipChunk_keys cantrip_fields (c.spellcasting.cantrips.take 8)) (by decide) hp)
    · exact absurd h (chunk_not_mem (slots_chunk_keys c) (by decide) hp)
    · exact absurd h (chunk_not_mem (zipChunk_keys level_1_spell_fields (c.spellcasting.level_1_spells.take 13)) (by decide) hp)
  · exact fun h => Or.inr (Or.inr (Or.inr (Or.inl h)))

/-- A field named like a skill bonus text field can only live in its own chunk. -/
theorem mem_core_iff_skill_text (c : Character) (pb : Int)
    (n : String) (v : FieldVal) (hp : n ∈ skill_text_names) :
    (n, v) ∈ field_mapping_core c pb ↔ (n, v) ∈ skill_text_chunk c pb := by
  rw [mem_core_iff]
  constructor
  · rintro (h|h|h|h|h|h|h|h|h|h|h|h)
    · exact absurd h (chunk_not_mem (header_chunk_keys c) (by decide) hp)
    · exact absurd h (chunk_not_mem (inspiration_chunk_keys c) (by decide) hp)
    · exact absurd h (chunk_not_mem (st_text_chunk_keys c pb) (by decide) hp)
    · exact absurd h (chunk_not_mem (st_box_chunk_keys c) (by decide) hp)
    · exact h
    · exact absurd h (chunk_not_mem (skill_box_chunk_keys c) (by decide) hp)
    · exact absurd h (chunk_not_mem (combat_chunk_keys c) (by decide) hp)
    · exact absurd h (chunk_not_mem (attacks_chunk_keys c) (by decide) hp)
    · exact absurd h (chunk_not_mem (tail_chunk_keys c) (by decide) hp)
    · exact absurd h (chunk_not_mem (zipChunk_keys cantrip_fields (c.spellcasting.cantrips.take 8)) (by decide) hp)
    · exact absurd h (chunk_not_mem (slots_chunk_keys c) (by decide) hp)
    · exact absurd h (chunk_not_mem (zipChunk_keys level_1_spell_fields (c.spellcasting.level_1_spells.take 13)) (by decide) hp)
  · exact fun h => Or.inr (Or.inr (Or.inr (Or.inr (Or.inl h))))

/-- A field named like a skill checkbox can only live in its own chunk. -/
theorem mem_core_iff_skill_box (c : Character) (pb : Int)
    (n : String) (v : FieldVal) (hp : n ∈ skill_box_names) :
    (n, v) ∈ field_mapping_core c pb ↔ (n, v) ∈ skill_box_chunk c := by
  rw [mem_core_iff]
  constructor
  · rintro (h|h|h|h|h|h|h|h|h|h|h|h)
    · exact absurd h (chunk_not_mem (header_chunk_keys c) (by decide) hp)
    · exact absurd h (chunk_not_mem (inspiration_chunk_keys c) (by decide) hp)
    · exact absurd h (chunk_not_mem (st_text_chunk_keys c pb) (by decide) hp)
    · exact absurd h (chunk_not_mem (st_box_chunk_keys c) (by decide) hp)
    · exact absurd h (chunk_not_mem (skill_text_chunk_keys c pb) (by decide) hp)
    · exact h
    · exact absurd h (chunk_not_mem (combat_chunk_keys c) (by decide) hp)
    · exact absurd h (chunk_not_mem (attacks_chunk_keys c) (by decide) hp)
    · exact absurd h (chunk_not_mem (tail_chunk_keys c) (by decide) hp)
    · exact absurd h (chunk_not_mem (zipChunk_keys cantrip_fields (c.spellcasting.cantrips.take 8)) (by decide) hp)
    · exact absurd h (chunk_not_mem (slots_chunk_keys c) (by decide) hp)
    · exact absurd h (chunk_not_mem (zipChunk_keys level_1_spell_fields (c.spellcasting.level_1_spells.take 13)) (by decide) hp)
  · exact fun h => Or.inr (Or.inr (Or.inr (Or.inr (Or.inr (Or.inl h)))))

/-- A field named like a weapon-attack slot can only live in its own chunk. -/
theorem mem_core_iff_attacks (c : Character) (pb : Int)
    (n : String) (v : FieldVal) (hp : n ∈ attacks_names) :
    (n, v) ∈ field_mapping_core c pb ↔ (n, v) ∈ attacks_chunk c := by
  rw [mem_core_iff]
  constructor
  · rintro (h|h|h|h|h|h|h|h|h|h|h|h)
    · exact absurd h (chunk_not_mem (header_chunk_keys c) (by decide) hp)
    · exact absurd h (chunk_not_mem (inspiration_chunk_keys c) (by decide) hp)
    · exact absurd h (chunk_not_mem (st_text_chunk_keys c pb) (by decide) hp)
    · exact absurd h (chunk_not_mem (st_box_chunk_keys c) (by decide) hp)
    · exact absurd h (chunk_not_mem (skill_text_chunk_keys c pb) (by decide) hp)
    · exact absurd h (chunk_not_mem (skill_box_chunk_keys c) (by decide) hp)
    · exact absurd h (chunk_not_mem (combat_chunk_keys c) (by decide) hp)
    · exact h
    · exact absurd h (chunk_not_mem (tail_chunk_keys c) (by decide) hp)
    · exact absurd h (chunk_not_mem (zipChunk_keys cantrip_fields (c.spellcasting.cantrips.take 8)) (by decide) hp)
    · exact absurd h (chunk_not_mem (slots_chunk_keys c) (by decide) hp)
    · exact absurd h (chunk_not_mem (zipChunk_keys level_1_spell_fields (c.spellcasting.level_1_spells.take 13)) (by decide) hp)
  · exact fun h => Or.inr (Or.inr (Or.inr (Or.inr (Or.inr (Or.inr (Or.inr (Or.inl h)))))))

/-- A field named like a tail text field can only live in its own chunk. -/
theorem mem_core_iff_tail (c : Character) (pb : Int)
    (n : String) (v : FieldVal) (hp : n ∈ tail_names) :
    (n, v) ∈ field_mapping_core c pb ↔ (n, v) ∈ tail_chunk c := by
  rw [mem_core_iff]
  constructor
  · rintro (h|h|h|h|h|h|h|h|h|h|h|h)
    · exact absurd h (chunk_not_mem (header_chunk_keys c) (by decide) hp)
    · exact absurd h (chunk_not_mem (inspiration_chunk_keys c) (by decide) hp)
    · exact absurd h (chunk_not_mem (st_text_chunk_keys c pb) (by decide) hp)
    · exact absurd h (chunk_not_mem (st_box_chunk_keys c) (by decide) hp)
    · exact absurd h (chunk_not_mem (skill_text_chunk_keys c pb) (by decide) hp)
    · exact absurd h (chunk_not_mem (skill_box_chunk_keys c) (by decide) hp)
    · exact absurd h (chunk_not_mem (combat_chunk_keys c) (by decide) hp)
    · exact absurd h (chunk_not_mem (attacks_chunk_keys c) (by decide) hp)
    · exact h
    · exact absurd h (chunk_not_mem (zipChunk_keys cantrip_fields (c.spellcasting.cantrips.take 8)) (by decide) hp)
    · exact absurd h (chunk_not_mem (slots_chunk_keys c) (by decide) hp)
    · exact absurd h (chunk_not_mem (zipChunk_keys level_1_spell_fields (c.spellcasting.level_1_spells.take 13)) (by decide) hp)
  · exact fun h => Or.inr (Or.inr (Or.inr (Or.inr (Or.inr (Or.inr (Or.inr (Or.inr (Or.inl h))))))))

/-- A field named like a cantrip slot can only live in its own chunk. -/
theorem mem_core_iff_cantrips (c : Character) (pb : Int)
    (n : String) (v : FieldVal) (hp : n ∈ cantrip_fields) :
    (n, v) ∈ field_mapping_core c pb ↔ (n, v) ∈ zipChunk cantrip_fields (c.spellcasting.cantrips.take 8) := by
  rw [mem_core_iff]
  constructor
  · rintro (h|h|h|h|h|h|h|h|h|h|h|h)
    · exact absurd h (chunk_not_mem (header_chunk_keys c) (by decide) hp)
    · exact absurd h (chunk_not_mem (inspiration_chunk_keys c) (by decide) hp)
    · exact absurd h (chunk_not_mem (st_text_chunk_keys c pb) (by decide) hp)
    · exact absurd h (chunk_not_mem (st_box_chunk_keys c) (by decide) hp)
    · exact absurd h (chunk_not_mem (skill_text_chunk_keys c pb) (by decide) hp)
    · exact absurd h (chunk_not_mem (skill_box_chunk_keys c) (by decide) hp)
    · exact absurd h (chunk_not_mem (combat_chunk_keys c) (by decide) hp)
    · exact absurd h (chunk_not_mem (attacks_chunk_keys c) (by decide) hp)
    · exact absurd h (chunk_not_mem (tail_chunk_keys c) (by decide) hp)
    · exact h
    · exact absurd h (chunk_not_mem (slots_chunk_keys c) (by decide) hp)
    · exact absurd h (chunk_not_mem (zipChunk_keys level_1_spell_fields (c.spellcasting.level_1_spells.take 13)) (by decide) hp)
  · exact fun h => Or.inr (Or.inr (Or.inr (Or.inr (Or.inr (Or.inr (Or.inr (Or.inr (Or.inr (Or.inl h)))))))))

/-- A field named like a spell-slot counter can only live in its own chunk. -/
theorem mem_core_iff_slots (c : Character) (pb : Int)
    (n : String) (v : FieldVal) (hp : n ∈ slots_names) :
    (n, v) ∈ field_mapping_core c pb ↔ (n, v) ∈ slots_chunk c := by
  rw [mem_core_iff]
  constructor
  · rintro (h|h|h|h|h|h|h|h|h|h|h|h)
    · exact absurd h (chunk_not_mem (header_chunk_keys c) (by decide) hp)
    · exact absurd h (chunk_not_mem (inspiration_chunk_keys c) (by decide) hp)
    · exact absurd h (chunk_not_mem (st_text_chunk_keys c pb) (by decide) hp)
    · exact absurd h (chunk_not_mem (st_box_chunk_keys c) (by decide) hp)
    · exact absurd h (chunk_not_mem (skill_text_chunk_keys c pb) (by decide) hp)
    · exact absurd h (chunk_not_mem (skill_box_chunk_keys c) (by decide) hp)
    · exact absurd h (chunk_not_mem (combat_chunk_keys c) (by decide) hp)
    · exact absurd h (chunk_not_mem (attacks_chunk_keys c) (by decide) hp)
    · exact absurd h (chunk_not_mem (tail_chunk_keys c) (by decide) hp)
    · exact absurd h (chunk_not_mem (zipChunk_keys cantrip_fields (c.spellcasting.cantrips.take 8)) (by decide) hp)
    · exact h
    · exact absurd h (chunk_not_mem (zipChunk_keys level_1_spell_fields (c.spellcasting.level_1_spells.take 13)) (by decide) hp)
  · exact fun h => Or.inr (Or.inr (Or.inr (Or.inr (Or.inr (Or.inr (Or.inr (Or.inr (Or.inr (Or.inr (Or.inl h))))))))))

/-- A field named like a level-1 spell slot can only live in its own chunk. -/
theorem mem_core_iff_spells1 (c : Character) (pb : Int)
    (n : String) (v : FieldVal) (hp : n ∈ level_1_spell_fields) :
    (n, v) ∈ field_mapping_core c pb ↔ (n, v) ∈ zipChunk level_1_spell_fields (c.spellcasting.level_1_spells.take 13) := by
  rw [mem_core_iff]
  constructor
  · rintro (h|h|h|h|h|h|h|h|h|h|h|h)
    · exact absurd h (chunk_not_mem (header_chunk_keys c) (by decide) hp)
    · exact absurd h (chunk_not_mem (inspiration_chunk_keys c) (by decide) hp)
    · exact absurd h (chunk_not_mem (st_text_chunk_keys c pb) (by decide) hp)
    · exact absurd h (chunk_not_mem (st_box_chunk_keys c) (by decide) hp)
    · exact absurd h (chunk_not_mem (skill_text_chunk_keys c pb) (by decide) hp)
    · exact absurd h (chunk_not_mem (skill_box_chunk_keys c) (by decide) hp)
    · exact absurd h (chunk_not_mem (combat_chunk_keys c) (by decide) hp)
    · exact absurd h (chunk_not_mem (attacks_chunk_keys c) (by decide) hp)
    · exact absurd h (chunk_not_mem (tail_chunk_keys c) (by decide) hp)
    · exact absurd h (chunk_not_mem (zipChunk_keys cantrip_fields (c.spellcasting.cantrips.take 8)) (by decide) hp)
    · exact absurd h (chunk_not_mem (slots_chunk_keys c) (by decide) hp)
    · exact h
  · exact fun h => Or.inr (Or.inr (Or.inr (Or.inr (Or.inr (Or.inr (Or.inr (Or.inr (Or.inr (Or.inr (Or.inr (h)))))))))))

/-- The field names of the `Skills` dataclass, in declaration order. -/
def skills_field_names : List String :=
  ["acrobatics", "animal_handling", "arcana", "athletics", "deception",
   "history", "insight", "intimidation", "investigation", "medicine",
   "nature", "perception", "performance", "persuasion", "religion",
   "sleight_of_hand", "stealth", "survival"]

/-- The mapping produced for the example character (its proficiency bonus
string `"+3"` parses to 3). -/
def example_field_mapping : List (String × FieldVal) :=
  field_mapping_core get_example_character 3

theorem example_mapping_eq :
    get_field_mapping get_example_character = some example_field_mapping := by
  rfl

/-- Destructure a successful `get_field_mapping` call into its parsed
proficiency bonus and the core mapping. -/
theorem get_field_mapping_eq_some {c : Character} {m : List (String × FieldVal)}
    (h : get_field_mapping c = some m) :
    ∃ pb, parse_proficiency_bonus c.proficiency_bonus = some pb
      ∧ m = field_mapping_core c pb := by
  unfold get_field_mapping at h
  cases hp : parse_proficiency_bonus c.proficiency_bonus with
  | none => rw [hp] at h; exact Option.noConfusion h
  | some pb =>
    rw [hp] at h
    exact ⟨pb, rfl, (Option.some.inj h).symm⟩

/-! ## Claim C8: table coverage and key uniqueness -/

/-- **C8.** Every skill name of the `SKILL_ABILITIES` table is a field of
the `Skills` record, and the field names emitted by `get_field_mapping` are
pairwise distinct. -/
theorem skill_table_covered_and_keys_unique :
    (∀ k ∈ SKILL_ABILITIES.map Prod.fst, k ∈ skills_field_names)
    ∧ (∀ (c : Character) (m : List (String × FieldVal)),
        get_field_mapping c = some m → (m.map Prod.fst).Nodup) := by
  refine ⟨by decide, fun c m h => ?_⟩
  obtain ⟨pb, hpb, rfl⟩ := get_field_mapping_eq_some h
  exact core_keys_nodup c pb

/-- Witness for C8 at a concrete skill name and the example character. -/
theorem skill_table_covered_and_keys_unique_witness :
    "stealth" ∈ skills_field_names ∧ (example_field_mapping.map Prod.fst).Nodup :=
  ⟨skill_table_covered_and_keys_unique.1 "stealth" (by decide),
   skill_table_covered_and_keys_unique.2 get_example_character
     example_field_mapping example_mapping_eq⟩

/-! ## Claim C4: checkbox fields are presence/absence markers -/

/-- **C4.** For every boolean proficiency flag (inspiration, the six
saving-throw proficiencies, the eighteen skill proficiencies), the
corresponding checkbox field is in the mapping exactly when the flag is
true, and then its value is the affirmative marker (`"Yes"` for
inspiration, `NameObject("/Yes")` for the others) — so in particular a flag
is never rendered as a `"true"`/`"false"` string, and a false flag's field
is entirely absent. -/
theorem checkbox_presence (c : Character) (m : List (String × FieldVal))
    (h : get_field_mapping c = some m) :
    (∀ v, ("Inspiration", v) ∈ m ↔ c.inspiration = true ∧ v = FieldVal.str "Yes")
    ∧ (∀ v, ("Check Box 11", v) ∈ m ↔ c.saving_throws.strength = true ∧ v = FieldVal.nameObj "/Yes")
    ∧ (∀ v, ("Check Box 18", v) ∈ m ↔ c.saving_throws.dexterity = true ∧ v = FieldVal.nameObj "/Yes")
    ∧ (∀ v, ("Check Box 19", v) ∈ m ↔ c.saving_throws.constitution = true ∧ v = FieldVal.nameObj "/Yes")
    ∧ (∀ v, ("Check Box 20", v) ∈ m ↔ c.saving_throws.intelligence = true ∧ v = FieldVal.nameObj "/Yes")
    ∧ (∀ v, ("Check Box 21", v) ∈ m ↔ c.saving_throws.wisdom = true ∧ v = FieldVal.nameObj "/Yes")
    ∧ (∀ v, ("Check Box 22", v) ∈ m ↔ c.saving_throws.charisma = true ∧ v = FieldVal.nameObj "/Yes")
    ∧ (∀ v, ("Check Box 23", v) ∈ m ↔ c.skills.acrobatics = true ∧ v = FieldVal.nameObj "/Yes")
    ∧ (∀ v, ("Check Box 24", v) ∈ m ↔ c.skills.animal_handling = true ∧ v = FieldVal.nameObj "/Yes")
    ∧ (∀ v, ("Check Box 25", v) ∈ m ↔ c.skills.arcana = true ∧ v = FieldVal.nameObj "/Yes")
    ∧ (∀ v, ("Check Box 26", v) ∈ m ↔ c.skills.athletics = true ∧ v = FieldVal.nameObj "/Yes")
    ∧ (∀ v, ("Check Box 27", v) ∈ m ↔ c.skills.deception = true ∧ v = FieldVal.nameObj "/Yes")
    ∧ (∀ v, ("Check Box 28", v) ∈ m ↔ c.skills.history = true ∧ v = FieldVal.nameObj "/Yes")
    ∧ (∀ v, ("Check Box 29", v) ∈ m ↔ c.skills.insight = true ∧ v = FieldVal.nameObj "/Yes")
    ∧ (∀ v, ("Check Box 30", v) ∈ m ↔ c.skills.intimidation = true ∧ v = FieldVal.nameObj "/Yes")
    ∧ (∀ v, ("Check Box 31", v) ∈ m ↔ c.skills.investigation = true ∧ v = FieldVal.nameObj "/Yes")
    ∧ (∀ v, ("Check Box 32", v) ∈ m ↔ c.skills.medicine = true ∧ v = FieldVal.nameObj "/Yes")
    ∧ (∀ v, ("Check Box 33", v) ∈ m ↔ c.skills.nature = true ∧ v = FieldVal.nameObj "/Yes")
    ∧ (∀ v, ("Check Box 34", v) ∈ m ↔ c.skills.perception = true ∧ v = FieldVal.nameObj "/Yes")
    ∧ (∀ v, ("Check Box 35", v) ∈ m ↔ c.skills.performance = true ∧ v = FieldVal.nameObj "/Yes")
    ∧ (∀ v, ("Check Box 36", v) ∈ m ↔ c.skills.persuasion = true ∧ v = FieldVal.nameObj "/Yes")
    ∧ (∀ v, ("Check Box 37", v) ∈ m ↔ c.skills.religion = true ∧ v = FieldVal.nameObj "/Yes")
    ∧ (∀ v, ("Check Box 38", v) ∈ m ↔ c.skills.sleight_of_hand = true ∧ v = FieldVal.nameObj "/Yes")
    ∧ (∀ v, ("Check Box 39", v) ∈ m ↔ c.skills.stealth = true ∧ v = FieldVal.nameObj "/Yes")
    ∧ (∀ v, ("Check Box 40", v) ∈ m ↔ c.skills.survival = true ∧ v = FieldVal.nameObj "/Yes") := by
  obtain ⟨pb, hpb, rfl⟩ := get_field_mapping_eq_some h
  refine ⟨?_, ?_, ?_, ?_, ?_, ?_, ?_, ?_, ?_, ?_, ?_, ?_, ?_, ?_, ?_, ?_, ?_, ?_, ?_, ?_, ?_, ?_, ?_, ?_, ?_⟩
  all_goals intro v
  · rw [mem_core_iff_inspiration c pb "Inspiration" v (by decide)]
    simp [inspiration_chunk, mem_ite_nil]
  · rw [mem_core_iff_st_box c pb "Check Box 11" v (by decide)]
    simp [st_box_chunk, mem_ite_nil]
  · rw [mem_core_iff_st_box c pb "Check Box 18" v (by decide)]
    simp [st_box_chunk, mem_ite_nil]
  · rw [mem_core_iff_st_box c pb "Check Box 19" v (by decide)]
    simp [st_box_chunk, mem_ite_nil]
  · rw [mem_core_iff_st_box c pb "Check Box 20" v (by decide)]
    simp [st_box_chunk, mem_ite_nil]
  · rw [mem_core_iff_st_box c pb "Check Box 21" v (by decide)]
    simp [st_box_chunk, mem_ite_nil]
  · rw [mem_core_iff_st_box c pb "Check Box 22" v (by decide)]
    simp [st_box_chunk, mem_ite_nil]
  · rw [mem_core_iff_skill_box c pb "Check Box 23" v (by decide)]
    simp [skill_box_chunk, mem_ite_nil]
  · rw [mem_core_iff_skill_box c pb "Check Box 24" v (by decide)]
    simp [skill_box_chunk, mem_ite_nil]
  · rw [mem_core_iff_skill_box c pb "Check Box 25" v (by decide)]
    simp [skill_box_chunk, mem_ite_nil]
  · rw [mem_core_iff_skill_box c pb "Check Box 26" v (by decide)]
    simp [skill_box_chunk, mem_ite_nil]
  · rw [mem_core_iff_skill_box c pb "Check Box 27" v (by decide)]
    simp [skill_box_chunk, mem_ite_nil]
  · rw [mem_core_iff_skill_box c pb "Check Box 28" v (by decide)]
    simp [skill_box_chunk, mem_ite_nil]
  · rw [mem_core_iff_skill_box c pb "Check Box 29" v (by decide)]
    simp [skill_box_chunk, mem_ite_nil]
  · rw [mem_core_iff_skill_box c pb "Check Box 30" v (by decide)]
    simp [skill_box_chunk, mem_ite_nil]
  · rw [mem_core_iff_skill_box c pb "Check Box 31" v (by decide)]
    simp [skill_box_chunk, mem_ite_nil]
  · rw [mem_core_iff_skill_box c pb "Check Box 32" v (by decide)]
    simp [skill_box_chunk, mem_ite_nil]
  · rw [mem_core_iff_skill_box c pb "Check Box 33" v (by decide)]
    simp [skill_box_chunk, mem_ite_nil]
  · rw [mem_core_iff_skill_box c pb "Check Box 34" v (by decide)]
    simp [skill_box_chunk, mem_ite_nil]
  · rw [mem_core_iff_skill_box c pb "Check Box 35" v (by decide)]
    simp [skill_box_chunk, mem_ite_nil]
  · rw [mem_core_iff_skill_box c pb "Check Box 36" v (by decide)]
    simp [skill_box_chunk, mem_ite_nil]
  · rw [mem_core_iff_skill_box c pb "Check Box 37" v (by decide)]
    simp [skill_box_chunk, mem_ite_nil]
  · rw [mem_core_iff_skill_box c pb "Check Box 38" v (by decide)]
    simp [skill_box_chunk, mem_ite_nil]
  · rw [mem_core_iff_skill_box c pb "Check Box 39" v (by decide)]
    simp [skill_box_chunk, mem_ite_nil]
  · rw [mem_core_iff_skill_box c pb "Check Box 40" v (by decide)]
    simp [skill_box_chunk, mem_ite_nil]

/-- Witness for C4 at the example character: the athletics box (a true
flag) is present with the marker value and the acrobatics box (a false
flag) is absent. -/
theorem checkbox_presence_witness :
    (("Check Box 26", FieldVal.nameObj "/Yes") ∈ example_field_mapping)
    ∧ (∀ v, ("Check Box 23", v) ∉ example_field_mapping) := by
  obtain ⟨-, -, -, -, -, -, -, hacro, -, -, hath, -⟩ :=
    checkbox_presence get_example_character example_field_mapping example_mapping_eq
  refine ⟨(hath _).mpr ⟨rfl, rfl⟩, fun v hv => ?_⟩
  exact absurd ((hacro v).mp hv).1 (by decide)

/-! ## Claim C1: saving-throw and skill bonus formula -/

set_option maxHeartbeats 2000000 in
/-- **C1.** Every saving-throw bonus text field and every skill bonus text
field equals `format_modifier` of the governing ability modifier plus the
proficiency bonus when the corresponding flag is set (governing abilities
per the fixed skill-to-ability table); the witness renders the claim's
`+2` modifier / `+3` bonus / proficient case as `"+5"`. -/
theorem bonus_fields_formula (c : Character) (pb : Int)
    (m : List (String × FieldVal))
    (hpb : parse_proficiency_bonus c.proficiency_bonus = some pb)
    (h : get_field_mapping c = some m) :
    (("ST Strength", FieldVal.str (format_modifier (calculate_modifier c.ability_scores.strength + (if c.saving_throws.strength then pb else 0)))) ∈ m)
    ∧ (("ST Dexterity", FieldVal.str (format_modifier (calculate_modifier c.ability_scores.dexterity + (if c.saving_throws.dexterity then pb else 0)))) ∈ m)
    ∧ (("ST Constitution", FieldVal.str (format_modifier (calculate_modifier c.ability_scores.constitution + (if c.saving_throws.constitution then pb else 0)))) ∈ m)
    ∧ (("ST Intelligence", FieldVal.str (format_modifier (calculate_modifier c.ability_scores.intelligence + (if c.saving_throws.intelligence then pb else 0)))) ∈ m)
    ∧ (("ST Wisdom", FieldVal.str (format_modifier (calculate_modifier c.ability_scores.wisdom + (if c.saving_throws.wisdom then pb else 0)))) ∈ m)
    ∧ (("ST Charisma", FieldVal.str (format_modifier (calculate_modifier c.ability_scores.charisma + (if c.saving_throws.charisma then pb else 0)))) ∈ m)
    ∧ (("Acrobatics", FieldVal.str (format_modifier (calculate_modifier c.ability_scores.dexterity + (if c.skills.acrobatics then pb else 0)))) ∈ m)
    ∧ (("Animal", FieldVal.str (format_modifier (calculate_modifier c.ability_scores.wisdom + (if c.skills.animal_handling then pb else 0)))) ∈ m)
    ∧ (("Arcana", FieldVal.str (format_modifier (calculate_modifier c.ability_scores.intelligence + (if c.skills.arcana then pb else 0)))) ∈ m)
    ∧ (("Athletics", FieldVal.str (format_modifier (calculate_modifier c.ability_scores.strength + (if c.skills.athletics then pb else 0)))) ∈ m)
    ∧ (("Deception ", FieldVal.str (format_modifier (calculate_modifier c.ability_scores.charisma + (if c.skills.deception then pb else 0)))) ∈ m)
    ∧ (("History ", FieldVal.str (format_modifier (calculate_modifier c.ability_scores.intelligence + (if c.skills.history then pb else 0)))) ∈ m)
    ∧ (("Insight", FieldVal.str (format_modifier (calculate_modifier c.ability_scores.wisdom + (if c.skills.insight then pb else 0)))) ∈ m)
    ∧ (("Intimidation", FieldVal.str (format_modifier (calculate_modifier c.ability_scores.charisma + (if c.skills.intimidation then pb else 0)))) ∈ m)
    ∧ (("Investigation ", FieldVal.str (format_modifier (calculate_modifier c.ability_scores.intelligence + (if c.skills.investigation then pb else 0)))) ∈ m)
    ∧ (("Medicine", FieldVal.str (format_modifier (calculate_modifier c.ability_scores.wisdom + (if c.skills.medicine then pb else 0)))) ∈ m)
    ∧ (("Nature", FieldVal.str (format_modifier (calculate_modifier c.ability_scores.intelligence + (if c.skills.nature then pb else 0)))) ∈ m)
    ∧ (("Perception ", FieldVal.str (format_modifier (calculate_modifier c.ability_scores.wisdom + (if c.skills.perception then pb else 0)))) ∈ m)
    ∧ (("Performance", FieldVal.str (format_modifier (calculate_modifier c.ability_scores.charisma + (if c.skills.performance then pb else 0)))) ∈ m)
    ∧ (("Persuasion", FieldVal.str (format_modifier (calculate_modifier c.ability_scores.charisma + (if c.skills.persuasion then pb else 0)))) ∈ m)
    ∧ (("Religion", FieldVal.str (format_modifier (calculate_modifier c.ability_scores.intelligence + (if c.skills.religion then pb else 0)))) ∈ m)
    ∧ (("SleightofHand", FieldVal.str (format_modifier (calculate_modifier c.ability_scores.dexterity + (if c.skills.sleight_of_hand then pb else 0)))) ∈ m)
    ∧ (("Stealth ", FieldVal.str (format_modifier (calculate_modifier c.ability_scores.dexterity + (if c.skills.stealth then pb else 0)))) ∈ m)
    ∧ (("Survival", FieldVal.str (format_modifier (calculate_modifier c.ability_scores.wisdom + (if c.skills.survival then pb else 0)))) ∈ m) := by
  obtain ⟨pb2, hpb2, rfl⟩ := get_field_mapping_eq_some h
  rw [hpb2] at hpb
  obtain rfl : pb = pb2 := (Option.some.inj hpb).symm
  refine ⟨?_, ?_, ?_, ?_, ?_, ?_, ?_, ?_, ?_, ?_, ?_, ?_, ?_, ?_, ?_, ?_, ?_, ?_, ?_, ?_, ?_, ?_, ?_, ?_⟩
  · rw [mem_core_iff_st_text c pb "ST Strength" _ (by decide)]
    simp [st_text_chunk, st_field_map, ability_mods, lookupD, List.lookup]
  · rw [mem_core_iff_st_text c pb "ST Dexterity" _ (by decide)]
    simp [st_text_chunk, st_field_map, ability_mods, lookupD, List.lookup]
  · rw [mem_core_iff_st_text c pb "ST Constitution" _ (by decide)]
    simp [st_text_chunk, st_field_map, ability_mods, lookupD, List.lookup]
  · rw [mem_core_iff_st_text c pb "ST Intelligence" _ (by decide)]
    simp [st_text_chunk, st_field_map, ability_mods, lookupD, List.lookup]
  · rw [mem_core_iff_st_text c pb "ST Wisdom" _ (by decide)]
    simp [st_text_chunk, st_field_map, ability_mods, lookupD, List.lookup]
  · rw [mem_core_iff_st_text c pb "ST Charisma" _ (by decide)]
    simp [st_text_chunk, st_field_map, ability_mods, lookupD, List.lookup]
  · rw [mem_core_iff_skill_text c pb "Acrobatics" _ (by decide)]
    simp [skill_text_chunk, skill_field_map, ability_mods, lookupD,
      List.lookup, SKILL_ABILITIES, skills_getattr]
  · rw [mem_core_iff_skill_text c pb "Animal" _ (by decide)]
    simp [skill_text_chunk, skill_field_map, ability_mods, lookupD,
      List.lookup, SKILL_ABILITIES, skills_getattr]
  · rw [mem_core_iff_skill_text c pb "Arcana" _ (by decide)]
    simp [skill_text_chunk, skill_field_map, ability_mods, lookupD,
      List.lookup, SKILL_ABILITIES, skills_getattr]
  · rw [mem_core_iff_skill_text c pb "Athletics" _ (by decide)]
    simp [skill_text_chunk, skill_field_map, ability_mods, lookupD,
      List.lookup, SKILL_ABILITIES, skills_getattr]
  · rw [mem_core_iff_skill_text c pb "Deception " _ (by decide)]
    simp [skill_text_chunk, skill_field_map, ability_mods, lookupD,
      List.lookup, SKILL_ABILITIES, skills_getattr]
  · rw [mem_core_iff_skill_text c pb "History " _ (by decide)]
    simp [skill_text_chunk, skill_field_map, ability_mods, lookupD,
      List.lookup, SKILL_ABILITIES, skills_getattr]
  · rw [mem_core_iff_skill_text c pb "Insight" _ (by decide)]
    simp [skill_text_chunk, skill_field_map, ability_mods, lookupD,
      List.lookup, SKILL_ABILITIES, skills_getattr]
  · rw [mem_core_iff_skill_text c pb "Intimidation" _ (by decide)]
    simp [skill_text_chunk, skill_field_map, ability_mods, lookupD,
      List.lookup, SKILL_ABILITIES, skills_getattr]
  · rw [mem_core_iff_skill_text c pb "Investigation " _ (by decide)]
    simp [skill_text_chunk, skill_field_map, ability_mods, lookupD,
      List.lookup, SKILL_ABILITIES, skills_getattr]
  · rw [mem_core_iff_skill_text c pb "Medicine" _ (by decide)]
    simp [skill_text_chunk, skill_field_map, ability_mods, lookupD,
      List.lookup, SKILL_ABILITIES, skills_getattr]
  · rw [mem_core_iff_skill_text c pb "Nature" _ (by decide)]
    simp [skill_text_chunk, skill_field_map, ability_mods, lookupD,
      List.lookup, SKILL_ABILITIES, skills_getattr]
  · rw [mem_core_iff_skill_text c pb "Perception " _ (by decide)]
    simp [skill_text_chunk, skill_field_map, ability_mods, lookupD,
      List.lookup, SKILL_ABILITIES, skills_getattr]
  · rw [mem_core_iff_skill_text c pb "Performance" _ (by decide)]
    simp [skill_text_chunk, skill_field_map, ability_mods, lookupD,
      List.lookup, SKILL_ABILITIES, skills_getattr]
  · rw [mem_core_iff_skill_text c pb "Persuasion" _ (by decide)]
    simp [skill_text_chunk, skill_field_map, ability_mods, lookupD,
      List.lookup, SKILL_ABILITIES, skills_getattr]
  · rw [mem_core_iff_skill_text c pb "Religion" _ (by decide)]
    simp [skill_text_chunk, skill_field_map, ability_mods, lookupD,
      List.lookup, SKILL_ABILITIES, skills_getattr]
  · rw [mem_core_iff_skill_text c pb "SleightofHand" _ (by decide)]
    simp [skill_text_chunk, skill_field_map, ability_mods, lookupD,
      List.lookup, SKILL_ABILITIES, skills_getattr]
  · rw [mem_core_iff_skill_text c pb "Stealth " _ (by decide)]
    simp [skill_text_chunk, skill_field_map, ability_mods, lookupD,
      List.lookup, SKILL_ABILITIES, skills_getattr]
  · rw [mem_core_iff_skill_text c pb "Survival" _ (by decide)]
    simp [skill_text_chunk, skill_field_map, ability_mods, lookupD,
      List.lookup, SKILL_ABILITIES, skills_getattr]

/-- A character exhibiting the claim's concrete case: dexterity 14
(modifier +2), proficiency bonus `"+3"`, proficient in acrobatics. -/
def c1_witness_character : Character :=
  { ability_scores := { dexterity := 14 },
    skills := { acrobatics := true },
    proficiency_bonus := "+3" }

/-- The mapping of `c1_witness_character`. -/
def c1_witness_mapping : List (String × FieldVal) :=
  field_mapping_core c1_witness_character 3

/-- Witness for C1: the proficient acrobatics skill of the witness
character (governing modifier +2, proficiency bonus +3) renders as
`"+5"`. -/
theorem bonus_fields_formula_witness :
    ("Acrobatics", FieldVal.str "+5") ∈ c1_witness_mapping := by
  have h := (bonus_fields_formula c1_witness_character 3 c1_witness_mapping
    (by rfl) (by rfl)).2.2.2.2.2.2.1
  have hv : format_modifier (calculate_modifier
      c1_witness_character.ability_scores.dexterity
      + (if c1_witness_character.skills.acrobatics then (3 : Int) else 0)) = "+5" := by
    decide
  rw [hv] at h
  exact h


/-! ## Claim C5: fixed numbered slots with truncation -/

theorem zipChunk_mem_getD_iff (ns : List String) :
    ∀ (vs : List String) (i : Nat), i < ns.length → ∀ v : FieldVal,
      ns.Nodup →
      ((ns.getD i "", v) ∈ zipChunk ns vs
        ↔ i < vs.length ∧ v = FieldVal.str (vs.getD i "")) := by
  induction ns with
  | nil =>
    intro vs i hi v hnd
    exact absurd hi (by simp)
  | cons n ns ih =>
    intro vs i hi v hnd
    have hnotin : n ∉ ns := (List.nodup_cons.mp hnd).1
    have hnd2 : ns.Nodup := (List.nodup_cons.mp hnd).2
    cases vs with
    | nil => simp [zipChunk]
    | cons w ws =>
      cases i with
      | zero =>
        have hz : (n, v) ∉ zipChunk ns ws :=
          not_mem_of_keys_sublist (zipChunk_keys ns ws) hnotin
        simp only [List.getD_cons_zero, zipChunk, List.zip_cons_cons,
          List.map_cons, List.mem_cons]
        constructor
        · rintro (he | hmem)
          · exact ⟨by simp, by simpa using congrArg Prod.snd he⟩
          · exact absurd hmem hz
        · rintro ⟨-, hv⟩
          exact Or.inl (by simp [hv])
      | succ j =>
        have hj : j < ns.length := by simpa using hi
        have hmem0 : ns.getD j "" ∈ ns := by
          have hg : ns.getD j "" = ns[j] := by
            simp [List.getD_eq_getElem?_getD, List.getElem?_eq_getElem hj]
          rw [hg]
          exact List.getElem_mem hj
        have hne : ns.getD j "" ≠ n := fun he => hnotin (he ▸ hmem0)
        have hstep := ih ws j hj v hnd2
        simp only [List.getD_cons_succ, zipChunk, List.zip_cons_cons,
          List.map_cons, List.mem_cons] at hstep ⊢
        constructor
        · rintro (he | hmem)
          · exact absurd (congrArg Prod.fst he) hne
          · have hr := hstep.mp hmem
            exact ⟨by simpa using hr.1, by simpa using hr.2⟩
        · rintro ⟨hlt, hv⟩
          exact Or.inr (hstep.mpr ⟨by simpa using hlt, by simpa using hv⟩)

theorem zipChunk_take_mem_iff (ns : List String) (k : Nat) (vs : List String)
    (i : Nat) (hi : i < ns.length) (hk : ns.length ≤ k) (v : FieldVal)
    (hnd : ns.Nodup) :
    ((ns.getD i "", v) ∈ zipChunk ns (vs.take k)
      ↔ i < vs.length ∧ v = FieldVal.str (vs.getD i "")) := by
  rw [zipChunk_mem_getD_iff ns (vs.take k) i hi v hnd]
  have hik : i < k := lt_of_lt_of_le hi hk
  have h1 : (i < (vs.take k).length ↔ i < vs.length) := by
    simp [List.length_take]
    omega
  have h2 : (vs.take k).getD i "" = vs.getD i "" := by
    simp [List.getD_eq_getElem?_getD, List.getElem?_take, hik]
  rw [h1, h2]

set_option maxHeartbeats 2000000 in
/-- **C5.** The list-valued sub-records render into a fixed number of
numbered slots (3 attacks, 8 cantrips, 13 level-1 spells): the slot for
index `i` is present exactly when the source list has more than `i`
entries, and then holds entry `i` — so shorter lists leave the remaining
slots absent, and for longer lists only the first N entries appear and the
excess is dropped. -/
theorem numbered_slots (c : Character) (m : List (String × FieldVal))
    (h : get_field_mapping c = some m) :
    (∀ v, ("Wpn Name", v) ∈ m ↔ 0 < c.attacks.length ∧ v = FieldVal.str (c.attacks.getD 0 {}).name)
    ∧ (∀ v, ("Wpn1 AtkBonus", v) ∈ m ↔ 0 < c.attacks.length ∧ v = FieldVal.str (c.attacks.getD 0 {}).attack_bonus)
    ∧ (∀ v, ("Wpn1 Damage", v) ∈ m ↔ 0 < c.attacks.length ∧ v = FieldVal.str (c.attacks.getD 0 {}).damage_type)
    ∧ (∀ v, ("Wpn Name 2", v) ∈ m ↔ 1 < c.attacks.length ∧ v = FieldVal.str (c.attacks.getD 1 {}).name)
    ∧ (∀ v, ("Wpn2 AtkBonus ", v) ∈ m ↔ 1 < c.attacks.length ∧ v = FieldVal.str (c.attacks.getD 1 {}).attack_bonus)
    ∧ (∀ v, ("Wpn2 Damage ", v) ∈ m ↔ 1 < c.attacks.length ∧ v = FieldVal.str (c.attacks.getD 1 {}).damage_type)
    ∧ (∀ v, ("Wpn Name 3", v) ∈ m ↔ 2 < c.attacks.length ∧ v = FieldVal.str (c.attacks.getD 2 {}).name)
    ∧ (∀ v, ("Wpn3 AtkBonus  ", v) ∈ m ↔ 2 < c.attacks.length ∧ v = FieldVal.str (c.attacks.getD 2 {}).attack_bonus)
    ∧ (∀ v, ("Wpn3 Damage ", v) ∈ m ↔ 2 < c.attacks.length ∧ v = FieldVal.str (c.attacks.getD 2 {}).damage_type)
    ∧ (∀ v, ("Spells 1014", v) ∈ m ↔ 0 < c.spellcasting.cantrips.length ∧ v = FieldVal.str (c.spellcasting.cantrips.getD 0 ""))
    ∧ (∀ v, ("Spells 1015", v) ∈ m ↔ 1 < c.spellcasting.cantrips.length ∧ v = FieldVal.str (c.spellcasting.cantrips.getD 1 ""))
    ∧ (∀ v, ("Spells 1016", v) ∈ m ↔ 2 < c.spellcasting.cantrips.length ∧ v = FieldVal.str (c.spellcasting.cantrips.getD 2 ""))
    ∧ (∀ v, ("Spells 1017", v) ∈ m ↔ 3 < c.spellcasting.cantrips.length ∧ v = FieldVal.str (c.spellcasting.cantrips.getD 3 ""))
    ∧ (∀ v, ("Spells 1018", v) ∈ m ↔ 4 < c.spellcasting.cantrips.length ∧ v = FieldVal.str (c.spellcasting.cantrips.getD 4 ""))
    ∧ (∀ v, ("Spells 1019", v) ∈ m ↔ 5 < c.spellcasting.cantrips.length ∧ v = FieldVal.str (c.spellcasting.cantrips.getD 5 ""))
    ∧ (∀ v, ("Spells 1020", v) ∈ m ↔ 6 < c.spellcasting.cantrips.length ∧ v = FieldVal.str (c.spellcasting.cantrips.getD 6 ""))
    ∧ (∀ v, ("Spells 1021", v) ∈ m ↔ 7 < c.spellcasting.cantrips.length ∧ v = FieldVal.str (c.spellcasting.cantrips.getD 7 ""))
    ∧ (∀ v, ("Spells 1022", v) ∈ m ↔ 0 < c.spellcasting.level_1_spells.length ∧ v = FieldVal.str (c.spellcasting.level_1_spells.getD 0 ""))
    ∧ (∀ v, ("Spells 1023", v) ∈ m ↔ 1 < c.spellcasting.level_1_spells.length ∧ v = FieldVal.str (c.spellcasting.level_1_spells.getD 1 ""))
    ∧ (∀ v, ("Spells 1024", v) ∈ m ↔ 2 < c.spellcasting.level_1_spells.length ∧ v = FieldVal.str (c.spellcasting.level_1_spells.getD 2 ""))
    ∧ (∀ v, ("Spells 1025", v) ∈ m ↔ 3 < c.spellcasting.level_1_spells.length ∧ v = FieldVal.str (c.spellcasting.level_1_spells.getD 3 ""))
    ∧ (∀ v, ("Spells 1026", v) ∈ m ↔ 4 < c.spellcasting.level_1_spells.length ∧ v = FieldVal.str (c.spellcasting.level_1_spells.getD 4 ""))
    ∧ (∀ v, ("Spells 1027", v) ∈ m ↔ 5 < c.spellcasting.level_1_spells.length ∧ v = FieldVal.str (c.spellcasting.level_1_spells.getD 5 ""))
    ∧ (∀ v, ("Spells 1028", v) ∈ m ↔ 6 < c.spellcasting.level_1_spells.length ∧ v = FieldVal.str (c.spellcasting.level_1_spells.getD 6 ""))
    ∧ (∀ v, ("Spells 1029", v) ∈ m ↔ 7 < c.spellcasting.level_1_spells.length ∧ v = FieldVal.str (c.spellcasting.level_1_spells.getD 7 ""))
    ∧ (∀ v, ("Spells 1030", v) ∈ m ↔ 8 < c.spellcasting.level_1_spells.length ∧ v = FieldVal.str (c.spellcasting.level_1_spells.getD 8 ""))
    ∧ (∀ v, ("Spells 1031", v) ∈ m ↔ 9 < c.spellcasting.level_1_spells.length ∧ v = FieldVal.str (c.spellcasting.level_1_spells.getD 9 ""))
    ∧ (∀ v, ("Spells 1032", v) ∈ m ↔ 10 < c.spellcasting.level_1_spells.length ∧ v = FieldVal.str (c.spellcasting.level_1_spells.getD 10 ""))
    ∧ (∀ v, ("Spells 1033", v) ∈ m ↔ 11 < c.spellcasting.level_1_spells.length ∧ v = FieldVal.str (c.spellcasting.level_1_spells.getD 11 ""))
    ∧ (∀ v, ("Spells 1034", v) ∈ m ↔ 12 < c.spellcasting.level_1_spells.length ∧ v = FieldVal.str (c.spellcasting.level_1_spells.getD 12 "")) := by
  obtain ⟨pb, hpb, rfl⟩ := get_field_mapping_eq_some h
  refine ⟨?_, ?_, ?_, ?_, ?_, ?_, ?_, ?_, ?_, ?_, ?_, ?_, ?_, ?_, ?_, ?_, ?_, ?_, ?_, ?_, ?_, ?_, ?_, ?_, ?_, ?_, ?_, ?_, ?_, ?_⟩
  all_goals intro v
  · rw [mem_core_iff_attacks c pb "Wpn Name" v (by decide)]
    simp [attacks_chunk, mem_ite_nil]
  · rw [mem_core_iff_attacks c pb "Wpn1 AtkBonus" v (by decide)]
    simp [attacks_chunk, mem_ite_nil]
  · rw [mem_core_iff_attacks c pb "Wpn1 Damage" v (by decide)]
    simp [attacks_chunk, mem_ite_nil]
  · rw [mem_core_iff_attacks c pb "Wpn Name 2" v (by decide)]
    simp [attacks_chunk, mem_ite_nil]
  · rw [mem_core_iff_attacks c pb "Wpn2 AtkBonus " v (by decide)]
    simp [attacks_chunk, mem_ite_nil]
  · rw [mem_core_iff_attacks c pb "Wpn2 Damage " v (by decide)]
    simp [attacks_chunk, mem_ite_nil]
  · rw [mem_core_iff_attacks c pb "Wpn Name 3" v (by decide)]
    simp [attacks_chunk, mem_ite_nil]
  · rw [mem_core_iff_attacks c pb "Wpn3 AtkBonus  " v (by decide)]
    simp [attacks_chunk, mem_ite_nil]
  · rw [mem_core_iff_attacks c pb "Wpn3 Damage " v (by decide)]
    simp [attacks_chunk, mem_ite_nil]
  · exact (mem_core_iff_cantrips c pb "Spells 1014" v (by decide)).trans
      (zipChunk_take_mem_iff cantrip_fields 8 c.spellcasting.cantrips 0
        (by decide) (by decide) v (by decide))
  · exact (mem_core_iff_cantrips c pb "Spells 1015" v (by decide)).trans
      (zipChunk_take_mem_iff cantrip_fields 8 c.spellcasting.cantrips 1
        (by decide) (by decide) v (by decide))
  · exact (mem_core_iff_cantrips c pb "Spells 1016" v (by decide)).trans
      (zipChunk_take_mem_iff cantrip_fields 8 c.spellcasting.cantrips 2
        (by decide) (by decide) v (by decide))
  · exact (mem_core_iff_cantrips c pb "Spells 1017" v (by decide)).trans
      (zipChunk_take_mem_iff cantrip_fields 8 c.spellcasting.cantrips 3
        (by decide) (by decide) v (by decide))
  · exact (mem_core_iff_cantrips c pb "Spells 1018" v (by decide)).trans
      (zipChunk_take_mem_iff cantrip_fields 8 c.spellcasting.cantrips 4
        (by decide) (by decide) v (by decide))
  · exact (mem_core_iff_cantrips c pb "Spells 1019" v (by decide)).trans
      (zipChunk_take_mem_iff cantrip_fields 8 c.spellcasting.cantrips 5
        (by decide) (by decide) v (by decide))
  · exact (mem_core_iff_cantrips c pb "Spells 1020" v (by decide)).trans
      (zipChunk_take_mem_iff cantrip_fields 8 c.spellcasting.cantrips 6
        (by decide) (by decide) v (by decide))
  · exact (mem_core_iff_cantrips c pb "Spells 1021" v (by decide)).trans
      (zipChunk_take_mem_iff cantrip_fields 8 c.spellcasting.cantrips 7
        (by decide) (by decide) v (by decide))
  · exact (mem_core_iff_spells1 c pb "Spells 1022" v (by decide)).trans
      (zipChunk_take_mem_iff level_1_spell_fields 13 c.spellcasting.level_1_spells 0
        (by decide) (by decide) v (by decide))
  · exact (mem_core_iff_spells1 c pb "Spells 1023" v (by decide)).trans
      (zipChunk_take_mem_iff level_1_spell_fields 13 c.spellcasting.level_1_spells 1
        (by decide) (by decide) v (by decide))
  · exact (mem_core_iff_spells1 c pb "Spells 1024" v (by decide)).trans
      (zipChunk_take_mem_iff level_1_spell_fields 13 c.spellcasting.level_1_spells 2
        (by decide) (by decide) v (by decide))
  · exact (mem_core_iff_spells1 c pb "Spells 1025" v (by decide)).trans
      (zipChunk_take_mem_iff level_1_spell_fields 13 c.spellcasting.level_1_spells 3
        (by decide) (by decide) v (by decide))
  · exact (mem_core_iff_spells1 c pb "Spells 1026" v (by decide)).trans
      (zipChunk_take_mem_iff level_1_spell_fields 13 c.spellcasting.level_1_spells 4
        (by decide) (by decide) v (by decide))
  · exact (mem_core_iff_spells1 c pb "Spells 1027" v (by decide)).trans
      (zipChunk_take_mem_iff level_1_spell_fields 13 c.spellcasting.level_1_spells 5
        (by decide) (by decide) v (by decide))
  · exact (mem_core_iff_spells1 c pb "Spells 1028" v (by decide)).trans
      (zipChunk_take_mem_iff level_1_spell_fields 13 c.spellcasting.level_1_spells 6
        (by decide) (by decide) v (by decide))
  · exact (mem_core_iff_spells1 c pb "Spells 1029" v (by decide)).trans
      (zipChunk_take_mem_iff level_1_spell_fields 13 c.spellcasting.level_1_spells 7
        (by decide) (by decide) v (by decide))
  · exact (mem_core_iff_spells1 c pb "Spells 1030" v (by decide)).trans
      (zipChunk_take_mem_iff level_1_spell_fields 13 c.spellcasting.level_1_spells 8
        (by decide) (by decide) v (by decide))
  · exact (mem_core_iff_spells1 c pb "Spells 1031" v (by decide)).trans
      (zipChunk_take_mem_iff level_1_spell_fields 13 c.spellcasting.level_1_spells 9
        (by decide) (by decide) v (by decide))
  · exact (mem_core_iff_spells1 c pb "Spells 1032" v (by decide)).trans
      (zipChunk_take_mem_iff level_1_spell_fields 13 c.spellcasting.level_1_spells 10
        (by decide) (by decide) v (by decide))
  · exact (mem_core_iff_spells1 c pb "Spells 1033" v (by decide)).trans
      (zipChunk_take_mem_iff level_1_spell_fields 13 c.spellcasting.level_1_spells 11
        (by decide) (by decide) v (by decide))
  · exact (mem_core_iff_spells1 c pb "Spells 1034" v (by decide)).trans
      (zipChunk_take_mem_iff level_1_spell_fields 13 c.spellcasting.level_1_spells 12
        (by decide) (by decide) v (by decide))

/-- A character with five attacks, for the C5 witness. -/
def five_attacks_character : Character :=
  { attacks :=
      [{ name := "A1", attack_bonus := "+1", damage_type := "d1" },
       { name := "A2", attack_bonus := "+2", damage_type := "d2" },
       { name := "A3", attack_bonus := "+3", damage_type := "d3" },
       { name := "A4", attack_bonus := "+4", damage_type := "d4" },
       { name := "A5", attack_bonus := "+5", damage_type := "d5" }] }

/-- The mapping of `five_attacks_character` (its empty proficiency-bonus
string parses to 0). -/
def five_attacks_mapping : List (String × FieldVal) :=
  field_mapping_core five_attacks_character 0

/-- Witness for C5: with five attacks the first three occupy the three
slots and the fourth and fifth attacks appear nowhere in the mapping. -/
theorem numbered_slots_witness :
    (("Wpn Name", FieldVal.str "A1") ∈ five_attacks_mapping)
    ∧ (("Wpn Name 3", FieldVal.str "A3") ∈ five_attacks_mapping)
    ∧ (∀ p ∈ five_attacks_mapping,
        p.2 ≠ FieldVal.str "A4" ∧ p.2 ≠ FieldVal.str "A5") := by
  have h := numbered_slots five_attacks_character five_attacks_mapping rfl
  refine ⟨(h.1 _).mpr ⟨by decide, by decide⟩,
    ((h.2.2.2.2.2.2.1) _).mpr ⟨by decide, by decide⟩, by decide⟩

/-! ## Claim C3: text fields and the zero-rendering convention -/

/-- The names of the text fields the mapper emits unconditionally (the
conditional fields — checkboxes, attack/cantrip/spell slots and spell-slot
counters — are not among them). -/
def unconditional_text_field_names : List String :=
  header_names ++ st_text_names ++ skill_text_names ++ combat_names ++ tail_names

/-- Input for the C3 counterexample: the all-defaults character, whose
level-1 spell-slot total is 0. -/
def zero_slots_character : Character := {}

/-- **C3 counterexample.** A spell-slot total of zero does *not* render as
an empty-string text field: the `SlotsTotal 19` field is entirely absent
from the mapping of the all-defaults character (whose level-1 total is 0),
contradicting the claim that every spell-slot numeric sub-field is rendered
as the empty string when the underlying integer is zero. -/
theorem zero_slot_field_omitted :
    get_field_mapping zero_slots_character
      = some (field_mapping_core zero_slots_character 0)
    ∧ zero_slots_character.spellcasting.level_1_slots.total = 0
    ∧ "SlotsTotal 19" ∉ (field_mapping_core zero_slots_character 0).map Prod.fst
    ∧ ("SlotsTotal 19", FieldVal.str "")
        ∉ field_mapping_core zero_slots_character 0 := by
  exact ⟨rfl, rfl, by decide, by decide⟩

set_option maxHeartbeats 2000000 in
/-- **C3 (amended).** Every unconditionally emitted text field is present
regardless of emptiness, and a currency denomination renders as the empty
string when the underlying integer is zero and as its decimal string
otherwise; but the spell-slot totals and expended counts are *omitted from
the mapping entirely* when zero (and render as their decimal string when
non-zero), rather than being rendered as an empty string. -/
theorem text_fields_and_zero_rendering (c : Character)
    (m : List (String × FieldVal)) (h : get_field_mapping c = some m) :
    (∀ n ∈ unconditional_text_field_names, ∃ v, (n, v) ∈ m)
    ∧ (("CP", FieldVal.str (if c.currency.cp ≠ 0 then toString c.currency.cp else "")) ∈ m)
    ∧ (("SP", FieldVal.str (if c.currency.sp ≠ 0 then toString c.currency.sp else "")) ∈ m)
    ∧ (("EP", FieldVal.str (if c.currency.ep ≠ 0 then toString c.currency.ep else "")) ∈ m)
    ∧ (("GP", FieldVal.str (if c.currency.gp ≠ 0 then toString c.currency.gp else "")) ∈ m)
    ∧ (("PP", FieldVal.str (if c.currency.pp ≠ 0 then toString c.currency.pp else "")) ∈ m)
    ∧ (∀ v, ("SlotsTotal 19", v) ∈ m ↔ c.spellcasting.level_1_slots.total ≠ 0 ∧ v = FieldVal.str (toString c.spellcasting.level_1_slots.total))
    ∧ (∀ v, ("SlotsRemaining 19", v) ∈ m ↔ c.spellcasting.level_1_slots.expended ≠ 0 ∧ v = FieldVal.str (toString c.spellcasting.level_1_slots.expended))
    ∧ (∀ v, ("SlotsTotal 20", v) ∈ m ↔ c.spellcasting.level_2_slots.total ≠ 0 ∧ v = FieldVal.str (toString c.spellcasting.level_2_slots.total))
    ∧ (∀ v, ("SlotsRemaining 20", v) ∈ m ↔ c.spellcasting.level_2_slots.expended ≠ 0 ∧ v = FieldVal.str (toString c.spellcasting.level_2_slots.expended))
    ∧ (∀ v, ("SlotsTotal 21", v) ∈ m ↔ c.spellcasting.level_3_slots.total ≠ 0 ∧ v = FieldVal.str (toString c.spellcasting.level_3_slots.total))
    ∧ (∀ v, ("SlotsRemaining 21", v) ∈ m ↔ c.spellcasting.level_3_slots.expended ≠ 0 ∧ v = FieldVal.str (toString c.spellcasting.level_3_slots.expended))
    ∧ (∀ v, ("SlotsTotal 22", v) ∈ m ↔ c.spellcasting.level_4_slots.total ≠ 0 ∧ v = FieldVal.str (toString c.spellcasting.level_4_slots.total))
    ∧ (∀ v, ("SlotsRemaining 22", v) ∈ m ↔ c.spellcasting.level_4_slots.expended ≠ 0 ∧ v = FieldVal.str (toString c.spellcasting.level_4_slots.expended))
    ∧ (∀ v, ("SlotsTotal 23", v) ∈ m ↔ c.spellcasting.level_5_slots.total ≠ 0 ∧ v = FieldVal.str (toString c.spellcasting.level_5_slots.total))
    ∧ (∀ v, ("SlotsRemaining 23", v) ∈ m ↔ c.spellcasting.level_5_slots.expended ≠ 0 ∧ v = FieldVal.str (toString c.spellcasting.level_5_slots.expended))
    ∧ (∀ v, ("SlotsTotal 24", v) ∈ m ↔ c.spellcasting.level_6_slots.total ≠ 0 ∧ v = FieldVal.str (toString c.spellcasting.level_6_slots.total))
    ∧ (∀ v, ("SlotsRemaining 24", v) ∈ m ↔ c.spellcasting.level_6_slots.expended ≠ 0 ∧ v = FieldVal.str (toString c.spellcasting.level_6_slots.expended))
    ∧ (∀ v, ("SlotsTotal 25", v) ∈ m ↔ c.spellcasting.level_7_slots.total ≠ 0 ∧ v = FieldVal.str (toString c.spellcasting.level_7_slots.total))
    ∧ (∀ v, ("SlotsRemaining 25", v) ∈ m ↔ c.spellcasting.level_7_slots.expended ≠ 0 ∧ v = FieldVal.str (toString c.spellcasting.level_7_slots.expended))
    ∧ (∀ v, ("SlotsTotal 26", v) ∈ m ↔ c.spellcasting.level_8_slots.total ≠ 0 ∧ v = FieldVal.str (toString c.spellcasting.level_8_slots.total))
    ∧ (∀ v, ("SlotsRemaining 26", v) ∈ m ↔ c.spellcasting.level_8_slots.expended ≠ 0 ∧ v = FieldVal.str (toString c.spellcasting.level_8_slots.expended))
    ∧ (∀ v, ("SlotsTotal 27", v) ∈ m ↔ c.spellcasting.level_9_slots.total ≠ 0 ∧ v = FieldVal.str (toString c.spellcasting.level_9_slots.total))
    ∧ (∀ v, ("SlotsRemaining 27", v) ∈ m ↔ c.spellcasting.level_9_slots.expended ≠ 0 ∧ v = FieldVal.str (toString c.spellcasting.level_9_slots.expended)) := by
  obtain ⟨pb, hpb, rfl⟩ := get_field_mapping_eq_some h
  refine ⟨?_, ?_, ?_, ?_, ?_, ?_, ?_, ?_, ?_, ?_, ?_, ?_, ?_, ?_, ?_, ?_, ?_, ?_, ?_, ?_, ?_, ?_, ?_, ?_⟩
  · have e1 : (header_chunk c).map Prod.fst = header_names := by
      simp [header_chunk, header_names]
    have e2 : (st_text_chunk c pb).map Prod.fst = st_text_names := by
      simp [st_text_chunk, st_field_map, st_text_names]
    have e3 : (skill_text_chunk c pb).map Prod.fst = skill_text_names := by
      simp [skill_text_chunk, skill_field_map, skill_text_names]
    have e4 : (combat_chunk c).map Prod.fst = combat_names := by
      simp [combat_chunk, combat_names]
    have e5 : (tail_chunk c).map Prod.fst = tail_names := by
      simp [tail_chunk, tail_names]
    have hH : List.Sublist header_names ((header_chunk c).map Prod.fst) := by
      rw [e1]
    have hST : List.Sublist st_text_names ((st_text_chunk c pb).map Prod.fst) := by
      rw [e2]
    have hSK : List.Sublist skill_text_names ((skill_text_chunk c pb).map Prod.fst) := by
      rw [e3]
    have hC : List.Sublist combat_names ((combat_chunk c).map Prod.fst) := by
      rw [e4]
    have hT : List.Sublist tail_names ((tail_chunk c).map Prod.fst) := by
      rw [e5]
    have hsub : List.Sublist unconditional_text_field_names
        ((field_mapping_core c pb).map Prod.fst) := by
      unfold field_mapping_core unconditional_text_field_names
      simp only [List.map_append]
      exact ((((((((((hH.append (List.nil_sublist _)).append hST).append
        (List.nil_sublist _)).append hSK).append
        (List.nil_sublist _)).append hC).append
        (List.nil_sublist _)).append hT).append
        (List.nil_sublist _)).append (List.nil_sublist _)).append
        (List.nil_sublist _)
    intro n hn
    obtain ⟨p, hp, he⟩ := List.mem_map.mp (hsub.subset hn)
    refine ⟨p.2, ?_⟩
    rw [← he]
    exact hp
  · rw [mem_core_iff_tail c pb "CP" _ (by decide)]
    simp [tail_chunk]
  · rw [mem_core_iff_tail c pb "SP" _ (by decide)]
    simp [tail_chunk]
  · rw [mem_core_iff_tail c pb "EP" _ (by decide)]
    simp [tail_chunk]
  · rw [mem_core_iff_tail c pb "GP" _ (by decide)]
    simp [tail_chunk]
  · rw [mem_core_iff_tail c pb "PP" _ (by decide)]
    simp [tail_chunk]
  · intro v
    rw [mem_core_iff_slots c pb "SlotsTotal 19" v (by decide)]
    simp [slots_chunk, slot_fields_chunk, mem_ite_nil]
  · intro v
    rw [mem_core_iff_slots c pb "SlotsRemaining 19" v (by decide)]
    simp [slots_chunk, slot_fields_chunk, mem_ite_nil]
  · intro v
    rw [mem_core_iff_slots c pb "SlotsTotal 20" v (by decide)]
    simp [slots_chunk, slot_fields_chunk, mem_ite_nil]
  · intro v
    rw [mem_core_iff_slots c pb "SlotsRemaining 20" v (by decide)]
    simp [slots_chunk, slot_fields_chunk, mem_ite_nil]
  · intro v
    rw [mem_core_iff_slots c pb "SlotsTotal 21" v (by decide)]
    simp [slots_chunk, slot_fields_chunk, mem_ite_nil]
  · intro v
    rw [mem_core_iff_slots c pb "SlotsRemaining 21" v (by decide)]
    simp [slots_chunk, slot_fields_chunk, mem_ite_nil]
  · intro v
    rw [mem_core_iff_slots c pb "SlotsTotal 22" v (by decide)]
    simp [slots_chunk, slot_fields_chunk, mem_ite_nil]
  · intro v
    rw [mem_core_iff_slots c pb "SlotsRemaining 22" v (by decide)]
    simp [slots_chunk, slot_fields_chunk, mem_ite_nil]
  · intro v
    rw [mem_core_iff_slots c pb "SlotsTotal 23" v (by decide)]
    simp [slots_chunk, slot_fields_chunk, mem_ite_nil]
  · intro v
    rw [mem_core_iff_slots c pb "SlotsRemaining 23" v (by decide)]
    simp [slots_chunk, slot_fields_chunk, mem_ite_nil]
  · intro v
    rw [mem_core_iff_slots c pb "SlotsTotal 24" v (by decide)]
    simp [slots_chunk, slot_fields_chunk, mem_ite_nil]
  · intro v
    rw [mem_core_iff_slots c pb "SlotsRemaining 24" v (by decide)]
    simp [slots_chunk, slot_fields_chunk, mem_ite_nil]
  · intro v
    rw [mem_core_iff_slots c pb "SlotsTotal 25" v (by decide)]
    simp [slots_chunk, slot_fields_chunk, mem_ite_nil]
  · intro v
    rw [mem_core_iff_slots c pb "SlotsRemaining 25" v (by decide)]
    simp [slots_chunk, slot_fields_chunk, mem_ite_nil]
  · intro v
    rw [mem_core_iff_slots c pb "SlotsTotal 26" v (by decide)]
    simp [slots_chunk, slot_fields_chunk, mem_ite_nil]
  · intro v
    rw [mem_core_iff_slots c pb "SlotsRemaining 26" v (by decide)]
    simp [slots_chunk, slot_fields_chunk, mem_ite_nil]
  · intro v
    rw [mem_core_iff_slots c pb "SlotsTotal 27" v (by decide)]
    simp [slots_chunk, slot_fields_chunk, mem_ite_nil]
  · intro v
    rw [mem_core_iff_slots c pb "SlotsRemaining 27" v (by decide)]
    simp [slots_chunk, slot_fields_chunk, mem_ite_nil]

/-- Witness for C3 at the example character: an always-present text field,
the non-zero GP field rendered as `"75"`, the zero CP field rendered as
`""`, and the absent zero slot-total field. -/
theorem text_fields_and_zero_rendering_witness :
    (∃ v, ("CharacterName", v) ∈ example_field_mapping)
    ∧ (("GP", FieldVal.str "75") ∈ example_field_mapping)
    ∧ (("CP", FieldVal.str "") ∈ example_field_mapping)
    ∧ (∀ v, ("SlotsTotal 19", v) ∉ example_field_mapping) := by
  have h := text_fields_and_zero_rendering get_example_character
    example_field_mapping example_mapping_eq
  obtain ⟨hun, hcp, -, -, hgp, -, hst19, hrest⟩ := h
  have egp : (if get_example_character.currency.gp ≠ 0 then
      toString get_example_character.currency.gp else "") = "75" := by decide
  have ecp : (if get_example_character.currency.cp ≠ 0 then
      toString get_example_character.currency.cp else "") = "" := by decide
  rw [egp] at hgp
  rw [ecp] at hcp
  refine ⟨hun "CharacterName" (by decide), hgp, hcp, fun v hv => ?_⟩
  exact absurd ((hst19 v).mp hv).1 (by decide)


/-! ## The Python value model for (de)serialisation -/

/-- A constructed dataclass instance as stored into the parsed-JSON dict by
`character_from_dict`. -/
inductive PyObj where
  | abilityScores (a : AbilityScores)
  | savingThrows (s : SavingThrows)
  | skillsObj (s : Skills)
  | deathSaves (d : DeathSaves)
  | currencyObj (c : Currency)
  | appearanceObj (a : Appearance)
  | attackObj (a : Attack)
  | spellSlots (s : SpellSlots)
  | spellcastingObj (s : Spellcasting)

/-- A Python value as handled by `character_from_dict` /
`to_serializable`: JSON scalars, lists, dicts (association lists in
insertion order — Python dict keys are unique and item assignment replaces
in place), and dataclass instances. -/
inductive PyVal where
  | str (s : String)
  | int (n : Int)
  | bool (b : Bool)
  | list (l : List PyVal)
  | dict (d : List (String × PyVal))
  | obj (o : PyObj)

/-- `asdict` of a `AbilityScores` instance. -/
def ability_scores_to_dict (x : AbilityScores) : List (String × PyVal) :=
  [("strength", PyVal.int x.strength),
   ("dexterity", PyVal.int x.dexterity),
   ("constitution", PyVal.int x.constitution),
   ("intelligence", PyVal.int x.intelligence),
   ("wisdom", PyVal.int x.wisdom),
   ("charisma", PyVal.int x.charisma)]

/-- `asdict` of a `SavingThrows` instance. -/
def saving_throws_to_dict (x : SavingThrows) : List (String × PyVal) :=
  [("strength", PyVal.bool x.strength),
   ("dexterity", PyVal.bool x.dexterity),
   ("constitution", PyVal.bool x.constitution),
   ("intelligence", PyVal.bool x.intelligence),
   ("wisdom", PyVal.bool x.wisdom),
   ("charisma", PyVal.bool x.charisma)]

/-- `asdict` of a `Skills` instance. -/
def skills_to_dict (x : Skills) : List (String × PyVal) :=
  [("acrobatics", PyVal.bool x.acrobatics),
   ("animal_handling", PyVal.bool x.animal_handling),
   ("arcana", PyVal.bool x.arcana),
   ("athletics", PyVal.bool x.athletics),
   ("deception", PyVal.bool x.deception),
   ("history", PyVal.bool x.history),
   ("insight", PyVal.bool x.insight),
   ("intimidation", PyVal.bool x.intimidation),
   ("investigation", PyVal.bool x.investigation),
   ("medicine", PyVal.bool x.medicine),
   ("nature", PyVal.bool x.nature),
   ("perception", PyVal.bool x.perception),
   ("performance", PyVal.bool x.performance),
   ("persuasion", PyVal.bool x.persuasion),
   ("religion", PyVal.bool x.religion),
   ("sleight_of_hand", PyVal.bool x.sleight_of_hand),
   ("stealth", PyVal.bool x.stealth),
   ("survival", PyVal.bool x.survival)]

/-- `asdict` of a `DeathSaves` instance. -/
def death_saves_to_dict (x : DeathSaves) : List (String × PyVal) :=
  [("successes", PyVal.int x.successes),
   ("failures", PyVal.int x.failures)]

/-- `asdict` of a `Currency` instance. -/
def currency_to_dict (x : Currency) : List (String × PyVal) :=
  [("cp", PyVal.int x.cp),
   ("sp", PyVal.int x.sp),
   ("ep", PyVal.int x.ep),
   ("gp", PyVal.int x.gp),
   ("pp", PyVal.int x.pp)]

/-- `asdict` of a `Appearance` instance. -/
def appearance_to_dict (x : Appearance) : List (String × PyVal) :=
  [("age", PyVal.str x.age),
   ("height", PyVal.str x.height),
   ("weight", PyVal.str x.weight),
   ("eyes", PyVal.str x.eyes),
   ("skin", PyVal.str x.skin),
   ("hair", PyVal.str x.hair)]

/-- `asdict` of a `Attack` instance. -/
def attack_to_dict (x : Attack) : List (String × PyVal) :=
  [("name", PyVal.str x.name),
   ("attack_bonus", PyVal.str x.attack_bonus),
   ("damage_type", PyVal.str x.damage_type)]

/-- `asdict` of a `SpellSlots` instance. -/
def spell_slots_to_dict (x : SpellSlots) : List (String × PyVal) :=
  [("total", PyVal.int x.total),
   ("expended", PyVal.int x.expended)]

/-- `asdict` of a `Spellcasting` instance. -/
def spellcasting_to_dict (s : Spellcasting) : List (String × PyVal) :=
  [("spellcasting_class", PyVal.str s.spellcasting_class),
   ("spellcasting_ability", PyVal.str s.spellcasting_ability),
   ("spell_save_dc", PyVal.str s.spell_save_dc),
   ("spell_attack_bonus", PyVal.str s.spell_attack_bonus),
   ("cantrips", PyVal.list (s.cantrips.map PyVal.str)),
   ("level_1_slots", PyVal.dict (spell_slots_to_dict s.level_1_slots)),
   ("level_1_spells", PyVal.list (s.level_1_spells.map PyVal.str)),
   ("level_2_slots", PyVal.dict (spell_slots_to_dict s.level_2_slots)),
   ("level_2_spells", PyVal.list (s.level_2_spells.map PyVal.str)),
   ("level_3_slots", PyVal.dict (spell_slots_to_dict s.level_3_slots)),
   ("level_3_spells", PyVal.list (s.level_3_spells.map PyVal.str)),
   ("level_4_slots", PyVal.dict (spell_slots_to_dict s.level_4_slots)),
   ("level_4_spells", PyVal.list (s.level_4_spells.map PyVal.str)),
   ("level_5_slots", PyVal.dict (spell_slots_to_dict s.level_5_slots)),
   ("level_5_spells", PyVal.list (s.level_5_spells.map PyVal.str)),
   ("level_6_slots", PyVal.dict (spell_slots_to_dict s.level_6_slots)),
   ("level_6_spells", PyVal.list (s.level_6_spells.map PyVal.str)),
   ("level_7_slots", PyVal.dict (spell_slots_to_dict s.level_7_slots)),
   ("level_7_spells", PyVal.list (s.level_7_spells.map PyVal.str)),
   ("level_8_slots", PyVal.dict (spell_slots_to_dict s.level_8_slots)),
   ("level_8_spells", PyVal.list (s.level_8_spells.map PyVal.str)),
   ("level_9_slots", PyVal.dict (spell_slots_to_dict s.level_9_slots)),
   ("level_9_spells", PyVal.list (s.level_9_spells.map PyVal.str))]

/-- `to_serializable` (used by `print_example_json`): recursively turn a
`Character` into a JSON-compatible nested dict, mirroring dataclass
`asdict`; the result is the association list of the top-level dict. -/
def to_serializable (c : Character) : List (String × PyVal) :=
  [("character_name", PyVal.str c.character_name),
   ("class_level", PyVal.str c.class_level),
   ("background", PyVal.str c.background),
   ("player_name", PyVal.str c.player_name),
   ("race", PyVal.str c.race),
   ("alignment", PyVal.str c.alignment),
   ("experience_points", PyVal.str c.experience_points),
   ("ability_scores", PyVal.dict (ability_scores_to_dict c.ability_scores)),
   ("inspiration", PyVal.bool c.inspiration),
   ("proficiency_bonus", PyVal.str c.proficiency_bonus),
   ("saving_throws", PyVal.dict (saving_throws_to_dict c.saving_throws)),
   ("skills", PyVal.dict (skills_to_dict c.skills)),
   ("passive_perception", PyVal.str c.passive_perception),
   ("armor_class", PyVal.str c.armor_class),
   ("initiative", PyVal.str c.initiative),
   ("speed", PyVal.str c.speed),
   ("hit_point_maximum", PyVal.str c.hit_point_maximum),
   ("current_hit_points", PyVal.str c.current_hit_points),
   ("temporary_hit_points", PyVal.str c.temporary_hit_points),
   ("hit_dice_total", PyVal.str c.hit_dice_total),
   ("hit_dice", PyVal.str c.hit_dice),
   ("death_saves", PyVal.dict (death_saves_to_dict c.death_saves)),
   ("attacks", PyVal.list (c.attacks.map (fun a => PyVal.dict (attack_to_dict a)))),
   ("attacks_notes", PyVal.str c.attacks_notes),
   ("currency", PyVal.dict (currency_to_dict c.currency)),
   ("equipment", PyVal.str c.equipment),
   ("personality_traits", PyVal.str c.personality_traits),
   ("ideals", PyVal.str c.ideals),
   ("bonds", PyVal.str c.bonds),
   ("flaws", PyVal.str c.flaws),
   ("other_proficiencies_languages", PyVal.str c.other_proficiencies_languages),
   ("features_traits", PyVal.str c.features_traits),
   ("appearance", PyVal.dict (appearance_to_dict c.appearance)),
   ("character_appearance", PyVal.str c.character_appearance),
   ("character_backstory", PyVal.str c.character_backstory),
   ("allies_organizations", PyVal.str c.allies_organizations),
   ("allies_organizations_name", PyVal.str c.allies_organizations_name),
   ("additional_features_traits", PyVal.str c.additional_features_traits),
   ("treasure", PyVal.str c.treasure),
   ("spellcasting", PyVal.dict (spellcasting_to_dict c.spellcasting))]

/-- The field names of `AbilityScores`. -/
def ability_scores_field_names : List String :=
  ["strength", "dexterity", "constitution", "intelligence", "wisdom", "charisma"]

/-- The field names of `SavingThrows`. -/
def saving_throws_field_names : List String :=
  ["strength", "dexterity", "constitution", "intelligence", "wisdom", "charisma"]


/-- The field names of `DeathSaves`. -/
def death_saves_field_names : List String :=
  ["successes", "failures"]

/-- The field names of `Currency`. -/
def currency_field_names : List String :=
  ["cp", "sp", "ep", "gp", "pp"]

/-- The field names of `Appearance`. -/
def appearance_field_names : List String :=
  ["age", "height", "weight", "eyes", "skin", "hair"]

/-- The field names of `Attack`. -/
def attack_field_names : List String :=
  ["name", "attack_bonus", "damage_type"]

/-- The field names of `SpellSlots`. -/
def spell_slots_field_names : List String :=
  ["total", "expended"]

/-- The field names of `Spellcasting`. -/
def spellcasting_field_names : List String :=
  ["spellcasting_class", "spellcasting_ability", "spell_save_dc", "spell_attack_bonus", "cantrips", "level_1_slots", "level_1_spells", "level_2_slots", "level_2_spells", "level_3_slots", "level_3_spells", "level_4_slots", "level_4_spells", "level_5_slots", "level_5_spells", "level_6_slots", "level_6_spells", "level_7_slots", "level_7_spells", "level_8_slots", "level_8_spells", "level_9_slots", "level_9_spells"]

/-- The field names of `Character`, in declaration order. -/
def character_field_names : List String :=
  ["character_name", "class_level", "background", "player_name", "race", "alignment", "experience_points", "ability_scores", "inspiration", "proficiency_bonus", "saving_throws", "skills", "passive_perception", "armor_class", "initiative", "speed", "hit_point_maximum", "current_hit_points", "temporary_hit_points", "hit_dice_total", "hit_dice", "death_saves", "attacks", "attacks_notes", "currency", "equipment", "personality_traits", "ideals", "bonds", "flaws", "other_proficiencies_languages", "features_traits", "appearance", "character_appearance", "character_backstory", "allies_organizations", "allies_organizations_name", "additional_features_traits", "treasure", "spellcasting"]


/-- Python dict item assignment `d[k] = v`: replaces the value at the first
occurrence of `k`, or appends the pair when the key is absent (in the
source every assignment is to a key already present). -/
def pyUpdate : List (String × PyVal) → String → PyVal → List (String × PyVal)
  | [], k, v => [(k, v)]
  | (k2, v2) :: rest, k, v =>
      if k2 = k then (k, v) :: rest else (k2, v2) :: pyUpdate rest k v

/-!
Keyword-argument extraction for the dataclass constructors `C(**d)`.
Python performs no type check on constructor arguments; a present value of
a shape other than the declared field type (which never arises from the
JSON schema this program consumes) is modelled as a constructor failure.
Each field kind has a shape check (`...Ok`, absent keys are fine — the
declared default is used) and a total getter (`get...D`) whose fallback
branch is unreachable when the check passed.
-/

/-- Shape check for a `str` field. -/
def strFieldOk (d : List (String × PyVal)) (k : String) : Bool :=
  match List.lookup k d with
  | none => true
  | some (PyVal.str _) => true
  | some _ => false

/-- Total getter for a `str` field (default for absent keys). -/
def getStrFieldD (d : List (String × PyVal)) (k : String) (dflt : String) :
    String :=
  match List.lookup k d with
  | some (PyVal.str s) => s
  | _ => dflt

/-- Shape check for an `int` field. -/
def intFieldOk (d : List (String × PyVal)) (k : String) : Bool :=
  match List.lookup k d with
  | none => true
  | some (PyVal.int _) => true
  | some _ => false

/-- Total getter for an `int` field. -/
def getIntFieldD (d : List (String × PyVal)) (k : String) (dflt : Int) :
    Int :=
  match List.lookup k d with
  | some (PyVal.int n) => n
  | _ => dflt

/-- Shape check for a `bool` field. -/
def boolFieldOk (d : List (String × PyVal)) (k : String) : Bool :=
  match List.lookup k d with
  | none => true
  | some (PyVal.bool _) => true
  | some _ => false

/-- Total getter for a `bool` field. -/
def getBoolFieldD (d : List (String × PyVal)) (k : String) (dflt : Bool) :
    Bool :=
  match List.lookup k d with
  | some (PyVal.bool b) => b
  | _ => dflt

/-- A serialized string-list element. -/
def strElemOk : PyVal → Bool
  | PyVal.str _ => true
  | _ => false

/-- Shape check for a `list[str]` field. -/
def strListFieldOk (d : List (String × PyVal)) (k : String) : Bool :=
  match List.lookup k d with
  | none => true
  | some (PyVal.list l) => l.all strElemOk
  | some _ => false

/-- Extract a string-list element. -/
def decodeStrD : PyVal → String
  | PyVal.str s => s
  | _ => ""

/-- Total getter for a `list[str]` field (default `[]`). -/
def getStrListFieldD (d : List (String × PyVal)) (k : String) : List String :=
  match List.lookup k d with
  | some (PyVal.list l) => l.map decodeStrD
  | _ => []

/-- Shape check for a `SpellSlots` field, which after the `level_N_slots`
conversion loop holds a constructed instance. -/
def slotsFieldOk (d : List (String × PyVal)) (k : String) : Bool :=
  match List.lookup k d with
  | none => true
  | some (PyVal.obj (PyObj.spellSlots _)) => true
  | some _ => false

/-- Total getter for a `SpellSlots` field. -/
def getSlotsFieldD (d : List (String × PyVal)) (k : String) : SpellSlots :=
  match List.lookup k d with
  | some (PyVal.obj (PyObj.spellSlots s)) => s
  | _ => {}

/-- `AbilityScores(**d)`: rejects unexpected keyword arguments (a `TypeError`) and
defaults missing fields. -/
def abilityScoresOfKwargs (d : List (String × PyVal)) : Option AbilityScores :=
  if d.all (fun kv => ability_scores_field_names.contains kv.1)
      && intFieldOk d "strength"
      && intFieldOk d "dexterity"
      && intFieldOk d "constitution"
      && intFieldOk d "intelligence"
      && intFieldOk d "wisdom"
      && intFieldOk d "charisma"
  then some
    { strength := getIntFieldD d "strength" 10,
      dexterity := getIntFieldD d "dexterity" 10,
      constitution := getIntFieldD d "constitution" 10,
      intelligence := getIntFieldD d "intelligence" 10,
      wisdom := getIntFieldD d "wisdom" 10,
      charisma := getIntFieldD d "charisma" 10 }
  else none

/-- `SavingThrows(**d)`: rejects unexpected keyword arguments (a `TypeError`) and
defaults missing fields. -/
def savingThrowsOfKwargs (d : List (String × PyVal)) : Option SavingThrows :=
  if d.all (fun kv => saving_throws_field_names.contains kv.1)
      && boolFieldOk d "strength"
      && boolFieldOk d "dexterity"
      && boolFieldOk d "constitution"
      && boolFieldOk d "intelligence"
      && boolFieldOk d "wisdom"
      && boolFieldOk d "charisma"
  then some
    { strength := getBoolFieldD d "strength" false,
      dexterity := getBoolFieldD d "dexterity" false,
      constitution := getBoolFieldD d "constitution" false,
      intelligence := getBoolFieldD d "intelligence" false,
      wisdom := getBoolFieldD d "wisdom" false,
      charisma := getBoolFieldD d "charisma" false }
  else none

/-- `Skills(**d)`: rejects unexpected keyword arguments (a `TypeError`) and
defaults missing fields. -/
def skillsOfKwargs (d : List (String × PyVal)) : Option Skills :=
  if d.all (fun kv => skills_field_names.contains kv.1)
      && boolFieldOk d "acrobatics"
      && boolFieldOk d "animal_handling"
      && boolFieldOk d "arcana"
      && boolFieldOk d "athletics"
      && boolFieldOk d "deception"
      && boolFieldOk d "history"
      && boolFieldOk d "insight"
      && boolFieldOk d "intimidation"
      && boolFieldOk d "investigation"
      && boolFieldOk d "medicine"
      && boolFieldOk d "nature"
      && boolFieldOk d "perception"
      && boolFieldOk d "performance"
      && boolFieldOk d "persuasion"
      && boolFieldOk d "religion"
      && boolFieldOk d "sleight_of_hand"
      && boolFieldOk d "stealth"
      && boolFieldOk d "survival"
  then some
    { acrobatics := getBoolFieldD d "acrobatics" false,
      animal_handling := getBoolFieldD d "animal_handling" false,
      arcana := getBoolFieldD d "arcana" false,
      athletics := getBoolFieldD d "athletics" false,
      deception := getBoolFieldD d "deception" false,
      history := getBoolFieldD d "history" false,
      insight := getBoolFieldD d "insight" false,
      intimidation := getBoolFieldD d "intimidation" false,
      investigation := getBoolFieldD d "investigation" false,
      medicine := getBoolFieldD d "medicine" false,
      nature := getBoolFieldD d "nature" false,
      perception := getBoolFieldD d "perception" false,
      performance := getBoolFieldD d "performance" false,
      persuasion := getBoolFieldD d "persuasion" false,
      religion := getBoolFieldD d "religion" false,
      sleight_of_hand := getBoolFieldD d "sleight_of_hand" false,
      stealth := getBoolFieldD d "stealth" false,
      survival := getBoolFieldD d "survival" false }
  else none

/-- `DeathSaves(**d)`: rejects unexpected keyword arguments (a `TypeError`) and
defaults missing fields. -/
def deathSavesOfKwargs (d : List (String × PyVal)) : Option DeathSaves :=
  if d.all (fun kv => death_saves_field_names.contains kv.1)
      && intFieldOk d "successes"
      && intFieldOk d "failures"
  then some
    { successes := getIntFieldD d "successes" 0,
      failures := getIntFieldD d "failures" 0 }
  else none

/-- `Currency(**d)`: rejects unexpected keyword arguments (a `TypeError`) and
defaults missing fields. -/
def currencyOfKwargs (d : List (String × PyVal)) : Option Currency :=
  if d.all (fun kv => currency_field_names.contains kv.1)
      && intFieldOk d "cp"
      && intFieldOk d "sp"
      && intFieldOk d "ep"
      && intFieldOk d "gp"
      && intFieldOk d "pp"
  then some
    { cp := getIntFieldD d "cp" 0,
      sp := getIntFieldD d "sp" 0,
      ep := getIntFieldD d "ep" 0,
      gp := getIntFieldD d "gp" 0,
      pp := getIntFieldD d "pp" 0 }
  else none

/-- `Appearance(**d)`: rejects unexpected keyword arguments (a `TypeError`) and
defaults missing fields. -/
def appearanceOfKwargs (d : List (String × PyVal)) : Option Appearance :=
  if d.all (fun kv => appearance_field_names.contains kv.1)
      && strFieldOk d "age"
      && strFieldOk d "height"
      && strFieldOk d "weight"
      && strFieldOk d "eyes"
      && strFieldOk d "skin"
      && strFieldOk d "hair"
  then some
    { age := getStrFieldD d "age" "",
      height := getStrFieldD d "height" "",
      weight := getStrFieldD d "weight" "",
      eyes := getStrFieldD d "eyes" "",
      skin := getStrFieldD d "skin" "",
      hair := getStrFieldD d "hair" "" }
  else none

/-- `Attack(**d)`: rejects unexpected keyword arguments (a `TypeError`) and
defaults missing fields. -/
def attackOfKwargs (d : List (String × PyVal)) : Option Attack :=
  if d.all (fun kv => attack_field_names.contains kv.1)
      && strFieldOk d "name"
      && strFieldOk d "attack_bonus"
      && strFieldOk d "damage_type"
  then some
    { name := getStrFieldD d "name" "",
      attack_bonus := getStrFieldD d "attack_bonus" "",
      damage_type := getStrFieldD d "damage_type" "" }
  else none

/-- `SpellSlots(**d)`: rejects unexpected keyword arguments (a `TypeError`) and
defaults missing fields. -/
def spellSlotsOfKwargs (d : List (String × PyVal)) : Option SpellSlots :=
  if d.all (fun kv => spell_slots_field_names.contains kv.1)
      && intFieldOk d "total"
      && intFieldOk d "expended"
  then some
    { total := getIntFieldD d "total" 0,
      expended := getIntFieldD d "expended" 0 }
  else none

/-- `Spellcasting(**sc)` after the slot-conversion loop. -/
def spellcastingOfKwargs (d : List (String × PyVal)) : Option Spellcasting :=
  if d.all (fun kv => spellcasting_field_names.contains kv.1)
      && strFieldOk d "spellcasting_class"
      && strFieldOk d "spellcasting_ability"
      && strFieldOk d "spell_save_dc"
      && strFieldOk d "spell_attack_bonus"
      && strListFieldOk d "cantrips"
      && slotsFieldOk d "level_1_slots"
      && strListFieldOk d "level_1_spells"
      && slotsFieldOk d "level_2_slots"
      && strListFieldOk d "level_2_spells"
      && slotsFieldOk d "level_3_slots"
      && strListFieldOk d "level_3_spells"
      && slotsFieldOk d "level_4_slots"
      && strListFieldOk d "level_4_spells"
      && slotsFieldOk d "level_5_slots"
      && strListFieldOk d "level_5_spells"
      && slotsFieldOk d "level_6_slots"
      && strListFieldOk d "level_6_spells"
      && slotsFieldOk d "level_7_slots"
      && strListFieldOk d "level_7_spells"
      && slotsFieldOk d "level_8_slots"
      && strListFieldOk d "level_8_spells"
      && slotsFieldOk d "level_9_slots"
      && strListFieldOk d "level_9_spells"
  then some
    { spellcasting_class := getStrFieldD d "spellcasting_class" "",
      spellcasting_ability := getStrFieldD d "spellcasting_ability" "",
      spell_save_dc := getStrFieldD d "spell_save_dc" "",
      spell_attack_bonus := getStrFieldD d "spell_attack_bonus" "",
      cantrips := getStrListFieldD d "cantrips",
      level_1_slots := getSlotsFieldD d "level_1_slots",
      level_1_spells := getStrListFieldD d "level_1_spells",
      level_2_slots := getSlotsFieldD d "level_2_slots",
      level_2_spells := getStrListFieldD d "level_2_spells",
      level_3_slots := getSlotsFieldD d "level_3_slots",
      level_3_spells := getStrListFieldD d "level_3_spells",
      level_4_slots := getSlotsFieldD d "level_4_slots",
      level_4_spells := getStrListFieldD d "level_4_spells",
      level_5_slots := getSlotsFieldD d "level_5_slots",
      level_5_spells := getStrListFieldD d "level_5_spells",
      level_6_slots := getSlotsFieldD d "level_6_slots",
      level_6_spells := getStrListFieldD d "level_6_spells",
      level_7_slots := getSlotsFieldD d "level_7_slots",
      level_7_spells := getStrListFieldD d "level_7_spells",
      level_8_slots := getSlotsFieldD d "level_8_slots",
      level_8_spells := getStrListFieldD d "level_8_spells",
      level_9_slots := getSlotsFieldD d "level_9_slots",
      level_9_spells := getStrListFieldD d "level_9_spells" }
  else none


/-- An attacks-list element after conversion: an `Attack` instance. -/
def attackElemOk : PyVal → Bool
  | PyVal.obj (PyObj.attackObj _) => true
  | _ => false

/-- Shape check for the `attacks` field after conversion. -/
def attacksFieldOk (d : List (String × PyVal)) : Bool :=
  match List.lookup "attacks" d with
  | none => true
  | some (PyVal.list l) => l.all attackElemOk
  | some _ => false

/-- Extract an attacks-list element. -/
def decodeAttackD : PyVal → Attack
  | PyVal.obj (PyObj.attackObj a) => a
  | _ => {}

/-- Total getter for the `attacks` field (default `[]`). -/
def getAttacksFieldD (d : List (String × PyVal)) : List Attack :=
  match List.lookup "attacks" d with
  | some (PyVal.list l) => l.map decodeAttackD
  | _ => []

/-- Shape check for a converted sub-record field: a constructed instance
accepted by `p`, or absent. -/
def objFieldOk (d : List (String × PyVal)) (k : String) (p : PyObj → Bool) :
    Bool :=
  match List.lookup k d with
  | none => true
  | some (PyVal.obj o) => p o
  | some _ => false

/-- Total getter for a converted sub-record field. -/
def getObjFieldD {α : Type} (d : List (String × PyVal)) (k : String)
    (dflt : α) (g : PyObj → Option α) : α :=
  match List.lookup k d with
  | some (PyVal.obj o) => (g o).getD dflt
  | _ => dflt

/-- `Character(**data)`: rejects unexpected keyword arguments (a
`TypeError`) and defaults missing fields. -/
def characterOfKwargs (d : List (String × PyVal)) : Option Character :=
  if d.all (fun kv => character_field_names.contains kv.1)
      && strFieldOk d "character_name"
      && strFieldOk d "class_level"
      && strFieldOk d "background"
      && strFieldOk d "player_name"
      && strFieldOk d "race"
      && strFieldOk d "alignment"
      && strFieldOk d "experience_points"
      && objFieldOk d "ability_scores"
        (fun o => match o with | PyObj.abilityScores _ => true | _ => false)
      && boolFieldOk d "inspiration"
      && strFieldOk d "proficiency_bonus"
      && objFieldOk d "saving_throws"
        (fun o => match o with | PyObj.savingThrows _ => true | _ => false)
      && objFieldOk d "skills"
        (fun o => match o with | PyObj.skillsObj _ => true | _ => false)
      && strFieldOk d "passive_perception"
      && strFieldOk d "armor_class"
      && strFieldOk d "initiative"
      && strFieldOk d "speed"
      && strFieldOk d "hit_point_maximum"
      && strFieldOk d "current_hit_points"
      && strFieldOk d "temporary_hit_points"
      && strFieldOk d "hit_dice_total"
      && strFieldOk d "hit_dice"
      && objFieldOk d "death_saves"
        (fun o => match o with | PyObj.deathSaves _ => true | _ => false)
      && attacksFieldOk d
      && strFieldOk d "attacks_notes"
      && objFieldOk d "currency"
        (fun o => match o with | PyObj.currencyObj _ => true | _ => false)
      && strFieldOk d "equipment"
      && strFieldOk d "personality_traits"
      && strFieldOk d "ideals"
      && strFieldOk d "bonds"
      && strFieldOk d "flaws"
      && strFieldOk d "other_proficiencies_languages"
      && strFieldOk d "features_traits"
      && objFieldOk d "appearance"
        (fun o => match o with | PyObj.appearanceObj _ => true | _ => false)
      && strFieldOk d "character_appearance"
      && strFieldOk d "character_backstory"
      && strFieldOk d "allies_organizations"
      && strFieldOk d "allies_organizations_name"
      && strFieldOk d "additional_features_traits"
      && strFieldOk d "treasure"
      && objFieldOk d "spellcasting"
        (fun o => match o with | PyObj.spellcastingObj _ => true | _ => false)
  then some
    { character_name := getStrFieldD d "character_name" "",
      class_level := getStrFieldD d "class_level" "",
      background := getStrFieldD d "background" "",
      player_name := getStrFieldD d "player_name" "",
      race := getStrFieldD d "race" "",
      alignment := getStrFieldD d "alignment" "",
      experience_points := getStrFieldD d "experience_points" "",
      ability_scores := getObjFieldD d "ability_scores" {}
        (fun o => match o with | PyObj.abilityScores x => some x | _ => none),
      inspiration := getBoolFieldD d "inspiration" false,
      proficiency_bonus := getStrFieldD d "proficiency_bonus" "",
      saving_throws := getObjFieldD d "saving_throws" {}
        (fun o => match o with | PyObj.savingThrows x => some x | _ => none),
      skills := getObjFieldD d "skills" {}
        (fun o => match o with | PyObj.skillsObj x => some x | _ => none),
      passive_perception := getStrFieldD d "passive_perception" "",
      armor_class := getStrFieldD d "armor_class" "",
      initiative := getStrFieldD d "initiative" "",
      speed := getStrFieldD d "speed" "",
      hit_point_maximum := getStrFieldD d "hit_point_maximum" "",
      current_hit_points := getStrFieldD d "current_hit_points" "",
      temporary_hit_points := getStrFieldD d "temporary_hit_points" "",
      hit_dice_total := getStrFieldD d "hit_dice_total" "",
      hit_dice := getStrFieldD d "hit_dice" "",
      death_saves := getObjFieldD d "death_saves" {}
        (fun o => match o with | PyObj.deathSaves x => some x | _ => none),
      attacks := getAttacksFieldD d,
      attacks_notes := getStrFieldD d "attacks_notes" "",
      currency := getObjFieldD d "currency" {}
        (fun o => match o with | PyObj.currencyObj x => some x | _ => none),
      equipment := getStrFieldD d "equipment" "",
      personality_traits := getStrFieldD d "personality_traits" "",
      ideals := getStrFieldD d "ideals" "",
      bonds := getStrFieldD d "bonds" "",
      flaws := getStrFieldD d "flaws" "",
      other_proficiencies_languages := getStrFieldD d "other_proficiencies_languages" "",
      features_traits := getStrFieldD d "features_traits" "",
      appearance := getObjFieldD d "appearance" {}
        (fun o => match o with | PyObj.appearanceObj x => some x | _ => none),
      character_appearance := getStrFieldD d "character_appearance" "",
      character_backstory := getStrFieldD d "character_backstory" "",
      allies_organizations := getStrFieldD d "allies_organizations" "",
      allies_organizations_name := getStrFieldD d "allies_organizations_name" "",
      additional_features_traits := getStrFieldD d "additional_features_traits" "",
      treasure := getStrFieldD d "treasure" "",
      spellcasting := getObjFieldD d "spellcasting" {}
        (fun o => match o with | PyObj.spellcastingObj s => some s | _ => none) }
  else none


/-- One `if key in data and isinstance(data[key], dict): data[key] =
C(**data[key])` statement of `character_from_dict`: the entry is replaced
in place by the constructed instance; a raised `TypeError` aborts. -/
def convert_subdict (data : List (String × PyVal)) (key : String)
    (f : List (String × PyVal) → Option PyObj) :
    Option (List (String × PyVal)) :=
  match List.lookup key data with
  | some (PyVal.dict d) => (f d).map (fun o => pyUpdate data key (PyVal.obj o))
  | _ => some data

/-- One element of the attacks list comprehension: `Attack(**a) if
isinstance(a, dict) else a`. -/
def convert_attack_elem : PyVal → Option PyVal
  | PyVal.dict d => (attackOfKwargs d).map (fun a => PyVal.obj (PyObj.attackObj a))
  | v => some v

/-- The `if "attacks" in data and isinstance(data["attacks"], list)`
statement: the entry is replaced by the freshly built list. -/
def convert_attacks (data : List (String × PyVal)) :
    Option (List (String × PyVal)) :=
  match List.lookup "attacks" data with
  | some (PyVal.list l) =>
      (l.mapM convert_attack_elem).map
        (fun l2 => pyUpdate data "attacks" (PyVal.list l2))
  | _ => some data

/-- One iteration of the `level_{level}_slots` conversion loop inside the
spellcasting branch. -/
def convert_slot_entry (sc : List (String × PyVal)) (key : String) :
    Option (List (String × PyVal)) :=
  match List.lookup key sc with
  | some (PyVal.dict d) =>
      (spellSlotsOfKwargs d).map
        (fun s => pyUpdate sc key (PyVal.obj (PyObj.spellSlots s)))
  | _ => some sc

/-- The `for level in range(1, 10)` slot-conversion loop over the
spellcasting sub-dict. -/
def convert_slot_levels (sc : List (String × PyVal)) :
    Option (List (String × PyVal)) :=
  ["level_1_slots", "level_2_slots", "level_3_slots", "level_4_slots",
   "level_5_slots", "level_6_slots", "level_7_slots", "level_8_slots",
   "level_9_slots"].foldlM convert_slot_entry sc

/-- The `if "spellcasting" in data and isinstance(..., dict)` block: the
nested `level_N_slots` dict entries are converted in place, then the whole
entry is replaced by `Spellcasting(**sc)`. -/
def convert_spellcasting (data : List (String × PyVal)) :
    Option (List (String × PyVal)) :=
  match List.lookup "spellcasting" data with
  | some (PyVal.dict sc) =>
      (convert_slot_levels sc).bind (fun sc2 =>
        (spellcastingOfKwargs sc2).map (fun s =>
          pyUpdate data "spellcasting" (PyVal.obj (PyObj.spellcastingObj s))))
  | _ => some data

/-- `character_from_dict`: converts the nested sub-records in place
(mutating the caller's dict) and then builds `Character(**data)`; the
result pairs the dict's final state with the constructed character, and
`none` models a raised exception (written as a left-nested chain of
`Option.bind` for the sequence of statements). -/
def character_from_dict (data : List (String × PyVal)) :
    Option (List (String × PyVal) × Character) :=
  ((((((((convert_subdict data "ability_scores"
      (fun d => (abilityScoresOfKwargs d).map PyObj.abilityScores)).bind
    (fun d1 => convert_subdict d1 "saving_throws"
      (fun d => (savingThrowsOfKwargs d).map PyObj.savingThrows))).bind
    (fun d2 => convert_subdict d2 "skills"
      (fun d => (skillsOfKwargs d).map PyObj.skillsObj))).bind
    (fun d3 => convert_subdict d3 "death_saves"
      (fun d => (deathSavesOfKwargs d).map PyObj.deathSaves))).bind
    (fun d4 => convert_subdict d4 "currency"
      (fun d => (currencyOfKwargs d).map PyObj.currencyObj))).bind
    (fun d5 => convert_subdict d5 "appearance"
      (fun d => (appearanceOfKwargs d).map PyObj.appearanceObj))).bind
    (fun d6 => convert_attacks d6)).bind
    (fun d7 => convert_spellcasting d7)).bind
    (fun d8 => (characterOfKwargs d8).map (fun ch => (d8, ch)))

/-! ## Helper lemmas for the (de)serialisation claims -/

theorem mem_keys_pyUpdate {d : List (String × PyVal)} (k : String) (v : PyVal)
    {a : String} (h : a ∈ d.map Prod.fst) :
    a ∈ (pyUpdate d k v).map Prod.fst := by
  induction d with
  | nil => simp at h
  | cons p rest ih =>
    obtain ⟨k2, v2⟩ := p
    simp only [pyUpdate]
    split
    · next heq =>
      simp only [List.map_cons, List.mem_cons] at h ⊢
      rcases h with h | h
      · exact Or.inl (h.trans heq)
      · exact Or.inr h
    · next hne =>
      simp only [List.map_cons, List.mem_cons] at h ⊢
      rcases h with h | h
      · exact Or.inl h
      · exact Or.inr (ih h)

theorem lookup_pyUpdate_self (d : List (String × PyVal)) (k : String) (v : PyVal) :
    List.lookup k (pyUpdate d k v) = some v := by
  induction d with
  | nil => simp [pyUpdate, List.lookup]
  | cons p rest ih =>
    obtain ⟨k2, v2⟩ := p
    simp only [pyUpdate]
    split
    · next heq => simp [List.lookup]
    · next hne =>
      have hb : (k == k2) = false := by
        simp
        exact fun he => hne he.symm
      simp [List.lookup, hb, ih]

theorem lookup_pyUpdate_ne (d : List (String × PyVal)) (k : String) (v : PyVal)
    {a : String} (hne : a ≠ k) :
    List.lookup a (pyUpdate d k v) = List.lookup a d := by
  induction d with
  | nil =>
    have hb : (a == k) = false := by simpa using hne
    simp [pyUpdate, List.lookup, hb]
  | cons p rest ih =>
    obtain ⟨k2, v2⟩ := p
    simp only [pyUpdate]
    split
    · next heq =>
      subst heq
      have hb : (a == k2) = false := by simpa using hne
      simp [List.lookup, hb]
    · next hne2 =>
      by_cases hak : a = k2
      · subst hak
        simp [List.lookup]
      · have hb : (a == k2) = false := by simpa using hak
        simp [List.lookup, hb, ih]


theorem convert_subdict_keys {data : List (String × PyVal)} {key : String}
    {f : List (String × PyVal) → Option PyObj} {d2 : List (String × PyVal)}
    (h : convert_subdict data key f = some d2) {a : String}
    (ha : a ∈ data.map Prod.fst) : a ∈ d2.map Prod.fst := by
  unfold convert_subdict at h
  split at h
  · next d0 heq =>
    obtain ⟨o, ho, rfl⟩ := Option.map_eq_some'.mp h
    exact mem_keys_pyUpdate key (PyVal.obj o) ha
  · next =>
    obtain rfl := Option.some.inj h
    exact ha

theorem convert_attacks_keys {data d2 : List (String × PyVal)}
    (h : convert_attacks data = some d2) {a : String}
    (ha : a ∈ data.map Prod.fst) : a ∈ d2.map Prod.fst := by
  unfold convert_attacks at h
  split at h
  · next l heq =>
    obtain ⟨l2, hl2, rfl⟩ := Option.map_eq_some'.mp h
    exact mem_keys_pyUpdate "attacks" (PyVal.list l2) ha
  · next =>
    obtain rfl := Option.some.inj h
    exact ha

theorem convert_spellcasting_keys {data d2 : List (String × PyVal)}
    (h : convert_spellcasting data = some d2) {a : String}
    (ha : a ∈ data.map Prod.fst) : a ∈ d2.map Prod.fst := by
  unfold convert_spellcasting at h
  split at h
  · next sc heq =>
    obtain ⟨sc2, hsc2, h⟩ := Option.bind_eq_some.mp h
    obtain ⟨s, hs, rfl⟩ := Option.map_eq_some'.mp h
    exact mem_keys_pyUpdate "spellcasting"
      (PyVal.obj (PyObj.spellcastingObj s)) ha
  · next =>
    obtain rfl := Option.some.inj h
    exact ha

theorem characterOfKwargs_unknown {d : List (String × PyVal)} {k : String}
    (hk : k ∈ d.map Prod.fst) (hnk : k ∉ character_field_names) :
    characterOfKwargs d = none := by
  obtain ⟨p, hp, he⟩ := List.mem_map.mp hk
  have hall : d.all (fun kv => character_field_names.contains kv.1) = false := by
    rw [List.all_eq_false]
    refine ⟨p, hp, ?_⟩
    simp [he]
    exact hnk
  unfold characterOfKwargs
  rw [hall]
  simp

/-- Decompose a successful `character_from_dict` run into its stages. -/
theorem character_from_dict_eq_some {data d : List (String × PyVal)}
    {ch : Character} (h : character_from_dict data = some (d, ch)) :
    ∃ d1 d2 d3 d4 d5 d6 d7,
      convert_subdict data "ability_scores"
        (fun dd => (abilityScoresOfKwargs dd).map PyObj.abilityScores) = some d1
      ∧ convert_subdict d1 "saving_throws"
        (fun dd => (savingThrowsOfKwargs dd).map PyObj.savingThrows) = some d2
      ∧ convert_subdict d2 "skills"
        (fun dd => (skillsOfKwargs dd).map PyObj.skillsObj) = some d3
      ∧ convert_subdict d3 "death_saves"
        (fun dd => (deathSavesOfKwargs dd).map PyObj.deathSaves) = some d4
      ∧ convert_subdict d4 "currency"
        (fun dd => (currencyOfKwargs dd).map PyObj.currencyObj) = some d5
      ∧ convert_subdict d5 "appearance"
        (fun dd => (appearanceOfKwargs dd).map PyObj.appearanceObj) = some d6
      ∧ convert_attacks d6 = some d7
      ∧ convert_spellcasting d7 = some d
      ∧ characterOfKwargs d = some ch := by
  unfold character_from_dict at h
  obtain ⟨d8, h8, h⟩ := Option.bind_eq_some.mp h
  obtain ⟨d7, h7, h8⟩ := Option.bind_eq_some.mp h8
  obtain ⟨d6, h6, h7⟩ := Option.bind_eq_some.mp h7
  obtain ⟨d5, h5, h6⟩ := Option.bind_eq_some.mp h6
  obtain ⟨d4, h4, h5⟩ := Option.bind_eq_some.mp h5
  obtain ⟨d3, h3, h4⟩ := Option.bind_eq_some.mp h4
  obtain ⟨d2, h2, h3⟩ := Option.bind_eq_some.mp h3
  obtain ⟨d1, h1, h2⟩ := Option.bind_eq_some.mp h2
  obtain ⟨ch2, hch, hpair⟩ := Option.map_eq_some'.mp h
  have hd : d8 = d := congrArg Prod.fst hpair
  have hc2 : ch2 = ch := congrArg Prod.snd hpair
  subst hd
  subst hc2
  exact ⟨d1, d2, d3, d4, d5, d6, d7, h1, h2, h3, h4, h5, h6, h7, h8, hch⟩


/-! ## Claim C9: unknown top-level keys are rejected -/

/-- **C9.** `Character(**data)` raises a `TypeError` on an unexpected
keyword argument, so any input dict with a top-level key that is not a
field of the `Character` schema makes `character_from_dict` fail rather
than silently ignore the key. -/
theorem unknown_key_rejected (data : List (String × PyVal)) (k : String)
    (v : PyVal) (hmem : (k, v) ∈ data) (hunk : k ∉ character_field_names) :
    character_from_dict data = none := by
  cases hres : character_from_dict data with
  | none => rfl
  | some p =>
    obtain ⟨d, ch⟩ := p
    obtain ⟨d1, d2, d3, d4, d5, d6, d7, h1, h2, h3, h4, h5, h6, h7, h8, hch⟩ :=
      character_from_dict_eq_some hres
    have hk0 : k ∈ data.map Prod.fst := List.mem_map.mpr ⟨(k, v), hmem, rfl⟩
    have hk : k ∈ d.map Prod.fst :=
      convert_spellcasting_keys h8 (convert_attacks_keys h7
        (convert_subdict_keys h6 (convert_subdict_keys h5
          (convert_subdict_keys h4 (convert_subdict_keys h3
            (convert_subdict_keys h2 (convert_subdict_keys h1 hk0)))))))
    rw [characterOfKwargs_unknown hk hunk] at hch
    exact Option.noConfusion hch

/-- Witness for C9: a dict whose only key is a misspelled field name is
rejected. -/
theorem unknown_key_rejected_witness :
    character_from_dict [("character_nam", PyVal.str "Thorn")] = none :=
  unknown_key_rejected _ "character_nam" (PyVal.str "Thorn") (by simp)
    (by decide)

/-! ## Claim C10: the input dict is mutated in place -/

theorem convert_subdict_lookup_self {data : List (String × PyVal)}
    {key : String} {f : List (String × PyVal) → Option PyObj}
    {d2 : List (String × PyVal)} (h : convert_subdict data key f = some d2)
    {dv : List (String × PyVal)}
    (hl : List.lookup key data = some (PyVal.dict dv)) :
    ∃ o, f dv = some o ∧ List.lookup key d2 = some (PyVal.obj o) := by
  unfold convert_subdict at h
  rw [hl] at h
  obtain ⟨o, ho, rfl⟩ := Option.map_eq_some'.mp h
  exact ⟨o, ho, lookup_pyUpdate_self data key (PyVal.obj o)⟩

theorem convert_subdict_lookup_ne {data : List (String × PyVal)}
    {key : String} {f : List (String × PyVal) → Option PyObj}
    {d2 : List (String × PyVal)} (h : convert_subdict data key f = some d2)
    {a : String} (hne : a ≠ key) :
    List.lookup a d2 = List.lookup a data := by
  unfold convert_subdict at h
  split at h
  · next heq =>
    obtain ⟨o, ho, rfl⟩ := Option.map_eq_some'.mp h
    exact lookup_pyUpdate_ne data key (PyVal.obj o) hne
  · next =>
    obtain rfl := Option.some.inj h
    rfl

theorem convert_attacks_lookup_self {data d2 : List (String × PyVal)}
    (h : convert_attacks data = some d2) {l : List PyVal}
    (hl : List.lookup "attacks" data = some (PyVal.list l)) :
    ∃ l2, l.mapM convert_attack_elem = some l2
      ∧ List.lookup "attacks" d2 = some (PyVal.list l2) := by
  unfold convert_attacks at h
  rw [hl] at h
  obtain ⟨l2, hl2, rfl⟩ := Option.map_eq_some'.mp h
  exact ⟨l2, hl2, lookup_pyUpdate_self data "attacks" (PyVal.list l2)⟩

theorem convert_attacks_lookup_ne {data d2 : List (String × PyVal)}
    (h : convert_attacks data = some d2) {a : String}
    (hne : a ≠ "attacks") :
    List.lookup a d2 = List.lookup a data := by
  unfold convert_attacks at h
  split at h
  · next l heq =>
    obtain ⟨l2, hl2, rfl⟩ := Option.map_eq_some'.mp h
    exact lookup_pyUpdate_ne data "attacks" (PyVal.list l2) hne
  · next =>
    obtain rfl := Option.some.inj h
    rfl

theorem convert_spellcasting_lookup_self {data d2 : List (String × PyVal)}
    (h : convert_spellcasting data = some d2) {sc : List (String × PyVal)}
    (hl : List.lookup "spellcasting" data = some (PyVal.dict sc)) :
    ∃ s, List.lookup "spellcasting" d2
      = some (PyVal.obj (PyObj.spellcastingObj s)) := by
  unfold convert_spellcasting at h
  rw [hl] at h
  obtain ⟨sc2, hsc2, h⟩ := Option.bind_eq_some.mp h
  obtain ⟨s, hs, rfl⟩ := Option.map_eq_some'.mp h
  exact ⟨s, lookup_pyUpdate_self data "spellcasting" _⟩

theorem convert_spellcasting_lookup_ne {data d2 : List (String × PyVal)}
    (h : convert_spellcasting data = some d2) {a : String}
    (hne : a ≠ "spellcasting") :
    List.lookup a d2 = List.lookup a data := by
  unfold convert_spellcasting at h
  split at h
  · next sc heq =>
    obtain ⟨sc2, hsc2, h⟩ := Option.bind_eq_some.mp h
    obtain ⟨s, hs, rfl⟩ := Option.map_eq_some'.mp h
    exact lookup_pyUpdate_ne data "spellcasting" _ hne
  · next =>
    obtain rfl := Option.some.inj h
    rfl

theorem mapM_convert_attack_ne :
    ∀ {l l2 : List PyVal}, l.mapM convert_attack_elem = some l2 →
      ∀ {dv : List (String × PyVal)}, PyVal.dict dv ∈ l → l2 ≠ l := by
  intro l
  induction l with
  | nil =>
    intro l2 h dv hd
    simp at hd
  | cons a as ih =>
    intro l2 h dv hd
    rw [List.mapM_cons] at h
    obtain ⟨b, hb, h⟩ := Option.bind_eq_some.mp h
    obtain ⟨bs, hbs, h⟩ := Option.bind_eq_some.mp h
    obtain rfl := Option.some.inj h
    rcases List.mem_cons.mp hd with heq | hd2
    · subst heq
      have hbne : b ≠ PyVal.dict dv := by
        unfold convert_attack_elem at hb
        obtain ⟨x, hx, rfl⟩ := Option.map_eq_some'.mp hb
        intro hcon
        exact PyVal.noConfusion hcon
      intro hcon
      have : b = PyVal.dict dv := congrArg (fun t => t.headD (PyVal.int 0)) hcon
      exact hbne this
    · have hne := ih hbs hd2
      intro hcon
      have : bs = as := congrArg List.tail hcon
      exact hne (by simpa using this)


/-- **C10 counterexample.** With `"attacks"` mapping to an *empty* list —
a sub-record key mapping to a list — `character_from_dict` rebuilds the
entry as an equal empty list: no dataclass instance is constructed for it
and the input dictionary is left (value-)unchanged, contradicting the
claim that every dict-or-list sub-record entry is replaced by a
constructed dataclass instance so that the dict never stays unchanged. -/
theorem attacks_empty_list_unchanged :
    character_from_dict [("attacks", PyVal.list [])]
      = some ([("attacks", PyVal.list [])], { attacks := [] }) := by
  rfl

set_option maxHeartbeats 1000000 in
/-- **C10 (amended).** On a successful run, each *dict-valued* sub-record
entry of the caller's dict (`ability_scores`, `skills`, `spellcasting`
shown; the claim's representative keys) is replaced in place by a
constructed dataclass instance, and an `attacks` list containing at least
one dict element is replaced by a different list (its dict elements now
`Attack` instances) — in each of those cases the input dictionary is not
left unchanged.  (An `attacks` entry whose list has no dict elements is
rebuilt equal, so the dict can remain value-unchanged — see the
counterexample.) -/
theorem subrecord_entries_materialized (data d : List (String × PyVal))
    (ch : Character) (h : character_from_dict data = some (d, ch)) :
    (∀ dv, List.lookup "ability_scores" data = some (PyVal.dict dv) →
      (∃ a, List.lookup "ability_scores" d
        = some (PyVal.obj (PyObj.abilityScores a))) ∧ d ≠ data)
    ∧ (∀ dv, List.lookup "skills" data = some (PyVal.dict dv) →
      (∃ s, List.lookup "skills" d
        = some (PyVal.obj (PyObj.skillsObj s))) ∧ d ≠ data)
    ∧ (∀ sc, List.lookup "spellcasting" data = some (PyVal.dict sc) →
      (∃ s, List.lookup "spellcasting" d
        = some (PyVal.obj (PyObj.spellcastingObj s))) ∧ d ≠ data)
    ∧ (∀ l, List.lookup "attacks" data = some (PyVal.list l) →
      (∃ dv, PyVal.dict dv ∈ l) →
      (∃ l2, List.lookup "attacks" d = some (PyVal.list l2) ∧ l2 ≠ l)
      ∧ d ≠ data) := by
  obtain ⟨d1, d2, d3, d4, d5, d6, d7, h1, h2, h3, h4, h5, h6, h7, h8, hch⟩ :=
    character_from_dict_eq_some h
  refine ⟨?_, ?_, ?_, ?_⟩
  · intro dv hl
    obtain ⟨o, ho, hlo⟩ := convert_subdict_lookup_self h1 hl
    obtain ⟨a, ha, rfl⟩ := Option.map_eq_some'.mp ho
    have hfin : List.lookup "ability_scores" d
        = some (PyVal.obj (PyObj.abilityScores a)) := by
      rw [convert_spellcasting_lookup_ne h8 (by decide),
        convert_attacks_lookup_ne h7 (by decide),
        convert_subdict_lookup_ne h6 (by decide),
        convert_subdict_lookup_ne h5 (by decide),
        convert_subdict_lookup_ne h4 (by decide),
        convert_subdict_lookup_ne h3 (by decide),
        convert_subdict_lookup_ne h2 (by decide)]
      exact hlo
    refine ⟨⟨a, hfin⟩, fun he => ?_⟩
    rw [he, hl] at hfin
    exact PyVal.noConfusion (Option.some.inj hfin)
  · intro dv hl
    have hl2 : List.lookup "skills" d2 = some (PyVal.dict dv) := by
      rw [convert_subdict_lookup_ne h2 (by decide),
        convert_subdict_lookup_ne h1 (by decide)]
      exact hl
    obtain ⟨o, ho, hlo⟩ := convert_subdict_lookup_self h3 hl2
    obtain ⟨s, hs, rfl⟩ := Option.map_eq_some'.mp ho
    have hfin : List.lookup "skills" d
        = some (PyVal.obj (PyObj.skillsObj s)) := by
      rw [convert_spellcasting_lookup_ne h8 (by decide),
        convert_attacks_lookup_ne h7 (by decide),
        convert_subdict_lookup_ne h6 (by decide),
        convert_subdict_lookup_ne h5 (by decide),
        convert_subdict_lookup_ne h4 (by decide)]
      exact hlo
    refine ⟨⟨s, hfin⟩, fun he => ?_⟩
    rw [he, hl] at hfin
    exact PyVal.noConfusion (Option.some.inj hfin)
  · intro sc hl
    have hl7 : List.lookup "spellcasting" d7 = some (PyVal.dict sc) := by
      rw [convert_attacks_lookup_ne h7 (by decide),
        convert_subdict_lookup_ne h6 (by decide),
        convert_subdict_lookup_ne h5 (by decide),
        convert_subdict_lookup_ne h4 (by decide),
        convert_subdict_lookup_ne h3 (by decide),
        convert_subdict_lookup_ne h2 (by decide),
        convert_subdict_lookup_ne h1 (by decide)]
      exact hl
    obtain ⟨s, hfin⟩ := convert_spellcasting_lookup_self h8 hl7
    refine ⟨⟨s, hfin⟩, fun he => ?_⟩
    rw [he, hl] at hfin
    exact PyVal.noConfusion (Option.some.inj hfin)
  · intro l hl hdv
    obtain ⟨dv, hdvmem⟩ := hdv
    have hl6 : List.lookup "attacks" d6 = some (PyVal.list l) := by
      rw [convert_subdict_lookup_ne h6 (by decide),
        convert_subdict_lookup_ne h5 (by decide),
        convert_subdict_lookup_ne h4 (by decide),
        convert_subdict_lookup_ne h3 (by decide),
        convert_subdict_lookup_ne h2 (by decide),
        convert_subdict_lookup_ne h1 (by decide)]
      exact hl
    obtain ⟨l2, hml, hlat⟩ := convert_attacks_lookup_self h7 hl6
    have hne := mapM_convert_attack_ne hml hdvmem
    have hfin : List.lookup "attacks" d = some (PyVal.list l2) := by
      rw [convert_spellcasting_lookup_ne h8 (by decide)]
      exact hlat
    refine ⟨⟨l2, hfin, hne⟩, fun he => ?_⟩
    rw [he, hl] at hfin
    exact hne (PyVal.list.inj (Option.some.inj hfin)).symm

/-- Input for the C10 witness: `ability_scores` maps to a dict and
`attacks` to a list with a dict element. -/
def mutation_witness_data : List (String × PyVal) :=
  [("ability_scores", PyVal.dict [("strength", PyVal.int 12)]),
   ("attacks", PyVal.list [PyVal.dict [("name", PyVal.str "Club")]])]

/-- The dict state returned for `mutation_witness_data`. -/
def mutation_witness_result : List (String × PyVal) :=
  ((character_from_dict mutation_witness_data).getD ([], {})).1

/-- The character returned for `mutation_witness_data`. -/
def mutation_witness_character : Character :=
  ((character_from_dict mutation_witness_data).getD ([], {})).2

/-- Witness for C10: on the concrete input the `ability_scores` entry has
become a constructed instance and the dict is changed. -/
theorem subrecord_entries_materialized_witness :
    (∃ a, List.lookup "ability_scores" mutation_witness_result
      = some (PyVal.obj (PyObj.abilityScores a)))
    ∧ mutation_witness_result ≠ mutation_witness_data := by
  have h := subrecord_entries_materialized mutation_witness_data
    mutation_witness_result mutation_witness_character rfl
  exact h.1 [("strength", PyVal.int 12)] rfl


/-! ## Claim C7: serialisation round-trip -/

theorem ability_scores_kwargs_roundtrip (a : AbilityScores) :
    abilityScoresOfKwargs (ability_scores_to_dict a) = some a := rfl

theorem saving_throws_kwargs_roundtrip (s : SavingThrows) :
    savingThrowsOfKwargs (saving_throws_to_dict s) = some s := rfl

theorem skills_kwargs_roundtrip (s : Skills) :
    skillsOfKwargs (skills_to_dict s) = some s := rfl

theorem death_saves_kwargs_roundtrip (d : DeathSaves) :
    deathSavesOfKwargs (death_saves_to_dict d) = some d := rfl

theorem currency_kwargs_roundtrip (x : Currency) :
    currencyOfKwargs (currency_to_dict x) = some x := rfl

theorem appearance_kwargs_roundtrip (a : Appearance) :
    appearanceOfKwargs (appearance_to_dict a) = some a := rfl

theorem attack_kwargs_roundtrip (a : Attack) :
    attackOfKwargs (attack_to_dict a) = some a := rfl

theorem spell_slots_kwargs_roundtrip (s : SpellSlots) :
    spellSlotsOfKwargs (spell_slots_to_dict s) = some s := rfl

theorem strList_all_ok (l : List String) :
    (l.map PyVal.str).all strElemOk = true := by
  induction l with
  | nil => rfl
  | cons a as ih => simp [strElemOk, ih]

theorem strList_decode (l : List String) :
    (l.map PyVal.str).map decodeStrD = l := by
  induction l with
  | nil => rfl
  | cons a as ih => simp [decodeStrD, ih]

theorem attacks_all_ok (l : List Attack) :
    (l.map (fun a => PyVal.obj (PyObj.attackObj a))).all attackElemOk = true := by
  induction l with
  | nil => rfl
  | cons a as ih => simp [attackElemOk, ih]

theorem attacks_decode (l : List Attack) :
    (l.map (fun a => PyVal.obj (PyObj.attackObj a))).map decodeAttackD = l := by
  induction l with
  | nil => rfl
  | cons a as ih => simp [decodeAttackD, ih]

theorem attacks_conv_roundtrip (l : List Attack) :
    (l.map (fun a => PyVal.dict (attack_to_dict a))).mapM convert_attack_elem
      = some (l.map (fun a => PyVal.obj (PyObj.attackObj a))) := by
  induction l with
  | nil => rfl
  | cons a as ih =>
    rw [List.map_cons, List.mapM_cons]
    rw [show convert_attack_elem (PyVal.dict (attack_to_dict a))
        = some (PyVal.obj (PyObj.attackObj a)) from rfl]
    rw [ih]
    rfl

/-- The spellcasting sub-dict after its slot-conversion loop: the nine
`level_N_slots` entries hold constructed instances. -/
def spellcasting_converted (s : Spellcasting) : List (String × PyVal) :=
  [("spellcasting_class", PyVal.str s.spellcasting_class),
   ("spellcasting_ability", PyVal.str s.spellcasting_ability),
   ("spell_save_dc", PyVal.str s.spell_save_dc),
   ("spell_attack_bonus", PyVal.str s.spell_attack_bonus),
   ("cantrips", PyVal.list (s.cantrips.map PyVal.str)),
   ("level_1_slots", PyVal.obj (PyObj.spellSlots s.level_1_slots)),
   ("level_1_spells", PyVal.list (s.level_1_spells.map PyVal.str)),
   ("level_2_slots", PyVal.obj (PyObj.spellSlots s.level_2_slots)),
   ("level_2_spells", PyVal.list (s.level_2_spells.map PyVal.str)),
   ("level_3_slots", PyVal.obj (PyObj.spellSlots s.level_3_slots)),
   ("level_3_spells", PyVal.list (s.level_3_spells.map PyVal.str)),
   ("level_4_slots", PyVal.obj (PyObj.spellSlots s.level_4_slots)),
   ("level_4_spells", PyVal.list (s.level_4_spells.map PyVal.str)),
   ("level_5_slots", PyVal.obj (PyObj.spellSlots s.level_5_slots)),
   ("level_5_spells", PyVal.list (s.level_5_spells.map PyVal.str)),
   ("level_6_slots", PyVal.obj (PyObj.spellSlots s.level_6_slots)),
   ("level_6_spells", PyVal.list (s.level_6_spells.map PyVal.str)),
   ("level_7_slots", PyVal.obj (PyObj.spellSlots s.level_7_slots)),
   ("level_7_spells", PyVal.list (s.level_7_spells.map PyVal.str)),
   ("level_8_slots", PyVal.obj (PyObj.spellSlots s.level_8_slots)),
   ("level_8_spells", PyVal.list (s.level_8_spells.map PyVal.str)),
   ("level_9_slots", PyVal.obj (PyObj.spellSlots s.level_9_slots)),
   ("level_9_spells", PyVal.list (s.level_9_spells.map PyVal.str))]

theorem convert_slot_levels_to_dict (s : Spellcasting) :
    convert_slot_levels (spellcasting_to_dict s)
      = some (spellcasting_converted s) := rfl


theorem strList_decode_comp (l : List String) :
    l.map (decodeStrD ∘ PyVal.str) = l := by
  induction l with
  | nil => rfl
  | cons a as ih => simp [decodeStrD, ih]

theorem attacks_decode_comp (l : List Attack) :
    l.map (decodeAttackD ∘ fun a => PyVal.obj (PyObj.attackObj a)) = l := by
  induction l with
  | nil => rfl
  | cons a as ih => simp [decodeAttackD, ih]

set_option maxHeartbeats 2000000 in
theorem spellcasting_kwargs_roundtrip (s : Spellcasting) :
    spellcastingOfKwargs (spellcasting_converted s) = some s := by
  simp [spellcastingOfKwargs, spellcasting_converted, spellcasting_field_names,
    strFieldOk, strListFieldOk, slotsFieldOk, getStrFieldD, getStrListFieldD,
    getSlotsFieldD, List.lookup, strList_all_ok, strList_decode,
    strList_decode_comp]


/-- The final state of the input dict after a `character_from_dict` run on
`to_serializable c`: the eight sub-record entries replaced in place by
constructed instances. -/
def to_serializable_converted (c : Character) : List (String × PyVal) :=
  pyUpdate (pyUpdate (pyUpdate (pyUpdate (pyUpdate (pyUpdate (pyUpdate
    (pyUpdate (to_serializable c)
      "ability_scores" (PyVal.obj (PyObj.abilityScores c.ability_scores)))
      "saving_throws" (PyVal.obj (PyObj.savingThrows c.saving_throws)))
      "skills" (PyVal.obj (PyObj.skillsObj c.skills)))
      "death_saves" (PyVal.obj (PyObj.deathSaves c.death_saves)))
      "currency" (PyVal.obj (PyObj.currencyObj c.currency)))
      "appearance" (PyVal.obj (PyObj.appearanceObj c.appearance)))
      "attacks" (PyVal.list (c.attacks.map (fun a => PyVal.obj (PyObj.attackObj a)))))
      "spellcasting" (PyVal.obj (PyObj.spellcastingObj c.spellcasting))

set_option maxHeartbeats 3000000 in
theorem characterOfKwargs_converted (c : Character) :
    characterOfKwargs (to_serializable_converted c) = some c := by
  simp [characterOfKwargs, to_serializable_converted, to_serializable,
    ability_scores_to_dict, saving_throws_to_dict, skills_to_dict,
    death_saves_to_dict, currency_to_dict, appearance_to_dict,
    attack_to_dict, spell_slots_to_dict, spellcasting_to_dict,
    character_field_names, pyUpdate, List.lookup,
    strFieldOk, boolFieldOk, strListFieldOk, slotsFieldOk, attacksFieldOk,
    objFieldOk, getStrFieldD, getBoolFieldD, getStrListFieldD,
    getSlotsFieldD, getAttacksFieldD, getObjFieldD,
    attacks_all_ok, attacks_decode, attacks_decode_comp]


set_option maxHeartbeats 2000000 in
/-- The full evaluation of `character_from_dict` on a serialized
character. -/
theorem character_from_dict_to_serializable (c : Character) :
    character_from_dict (to_serializable c)
      = some (to_serializable_converted c, c) := by
  have h1 : convert_subdict (to_serializable c)
      "ability_scores" (fun d => (abilityScoresOfKwargs d).map PyObj.abilityScores)
      = some (pyUpdate (to_serializable c)
      "ability_scores" (PyVal.obj (PyObj.abilityScores c.ability_scores))) := rfl
  have h2 : convert_subdict (pyUpdate (to_serializable c)
      "ability_scores" (PyVal.obj (PyObj.abilityScores c.ability_scores)))
      "saving_throws" (fun d => (savingThrowsOfKwargs d).map PyObj.savingThrows)
      = some (pyUpdate (pyUpdate (to_serializable c)
      "ability_scores" (PyVal.obj (PyObj.abilityScores c.ability_scores)))
      "saving_throws" (PyVal.obj (PyObj.savingThrows c.saving_throws))) := rfl
  have h3 : convert_subdict (pyUpdate (pyUpdate (to_serializable c)
      "ability_scores" (PyVal.obj (PyObj.abilityScores c.ability_scores)))
      "saving_throws" (PyVal.obj (PyObj.savingThrows c.saving_throws)))
      "skills" (fun d => (skillsOfKwargs d).map PyObj.skillsObj)
      = some (pyUpdate (pyUpdate (pyUpdate (to_serializable c)
      "ability_scores" (PyVal.obj (PyObj.abilityScores c.ability_scores)))
      "saving_throws" (PyVal.obj (PyObj.savingThrows c.saving_throws)))
      "skills" (PyVal.obj (PyObj.skillsObj c.skills))) := rfl
  have h4 : convert_subdict (pyUpdate (pyUpdate (pyUpdate (to_serializable c)
      "ability_scores" (PyVal.obj (PyObj.abilityScores c.ability_scores)))
      "saving_throws" (PyVal.obj (PyObj.savingThrows c.saving_throws)))
      "skills" (PyVal.obj (PyObj.skillsObj c.skills)))
      "death_saves" (fun d => (deathSavesOfKwargs d).map PyObj.deathSaves)
      = some (pyUpdate (pyUpdate (pyUpdate (pyUpdate (to_serializable c)
      "ability_scores" (PyVal.obj (PyObj.abilityScores c.ability_scores)))
      "saving_throws" (PyVal.obj (PyObj.savingThrows c.saving_throws)))
      "skills" (PyVal.obj (PyObj.skillsObj c.skills)))
      "death_saves" (PyVal.obj (PyObj.deathSaves c.death_saves))) := rfl
  have h5 : convert_subdict (pyUpdate (pyUpdate (pyUpdate (pyUpdate (to_serializable c)
      "ability_scores" (PyVal.obj (PyObj.abilityScores c.ability_scores)))
      "saving_throws" (PyVal.obj (PyObj.savingThrows c.saving_throws)))
      "skills" (PyVal.obj (PyObj.skillsObj c.skills)))
      "death_saves" (PyVal.obj (PyObj.deathSaves c.death_saves)))
      "currency" (fun d => (currencyOfKwargs d).map PyObj.currencyObj)
      = some (pyUpdate (pyUpdate (pyUpdate (pyUpdate (pyUpdate (to_serializable c)
      "ability_scores" (PyVal.obj (PyObj.abilityScores c.ability_scores)))
      "saving_throws" (PyVal.obj (PyObj.savingThrows c.saving_throws)))
      "skills" (PyVal.obj (PyObj.skillsObj c.skills)))
      "death_saves" (PyVal.obj (PyObj.deathSaves c.death_saves)))
      "currency" (PyVal.obj (PyObj.currencyObj c.currency))) := rfl
  have h6 : convert_subdict (pyUpdate (pyUpdate (pyUpdate (pyUpdate (pyUpdate (to_serializable c)
      "ability_scores" (PyVal.obj (PyObj.abilityScores c.ability_scores)))
      "saving_throws" (PyVal.obj (PyObj.savingThrows c.saving_throws)))
      "skills" (PyVal.obj (PyObj.skillsObj c.skills)))
      "death_saves" (PyVal.obj (PyObj.deathSaves c.death_saves)))
      "currency" (PyVal.obj (PyObj.currencyObj c.currency)))
      "appearance" (fun d => (appearanceOfKwargs d).map PyObj.appearanceObj)
      = some (pyUpdate (pyUpdate (pyUpdate (pyUpdate (pyUpdate (pyUpdate (to_serializable c)
      "ability_scores" (PyVal.obj (PyObj.abilityScores c.ability_scores)))
      "saving_throws" (PyVal.obj (PyObj.savingThrows c.saving_throws)))
      "skills" (PyVal.obj (PyObj.skillsObj c.skills)))
      "death_saves" (PyVal.obj (PyObj.deathSaves c.death_saves)))
      "currency" (PyVal.obj (PyObj.currencyObj c.currency)))
      "appearance" (PyVal.obj (PyObj.appearanceObj c.appearance))) := rfl
  have h7 : convert_attacks (pyUpdate (pyUpdate (pyUpdate (pyUpdate (pyUpdate (pyUpdate (to_serializable c)
      "ability_scores" (PyVal.obj (PyObj.abilityScores c.ability_scores)))
      "saving_throws" (PyVal.obj (PyObj.savingThrows c.saving_throws)))
      "skills" (PyVal.obj (PyObj.skillsObj c.skills)))
      "death_saves" (PyVal.obj (PyObj.deathSaves c.death_saves)))
      "currency" (PyVal.obj (PyObj.currencyObj c.currency)))
      "appearance" (PyVal.obj (PyObj.appearanceObj c.appearance)))
      = some (pyUpdate (pyUpdate (pyUpdate (pyUpdate (pyUpdate (pyUpdate (pyUpdate (to_serializable c)
      "ability_scores" (PyVal.obj (PyObj.abilityScores c.ability_scores)))
      "saving_throws" (PyVal.obj (PyObj.savingThrows c.saving_throws)))
      "skills" (PyVal.obj (PyObj.skillsObj c.skills)))
      "death_saves" (PyVal.obj (PyObj.deathSaves c.death_saves)))
      "currency" (PyVal.obj (PyObj.currencyObj c.currency)))
      "appearance" (PyVal.obj (PyObj.appearanceObj c.appearance)))
      "attacks" (PyVal.list (c.attacks.map (fun a => PyVal.obj (PyObj.attackObj a))))) := by
    unfold convert_attacks
    rw [show List.lookup "attacks" (pyUpdate (pyUpdate (pyUpdate (pyUpdate (pyUpdate (pyUpdate (to_serializable c)
      "ability_scores" (PyVal.obj (PyObj.abilityScores c.ability_scores)))
      "saving_throws" (PyVal.obj (PyObj.savingThrows c.saving_throws)))
      "skills" (PyVal.obj (PyObj.skillsObj c.skills)))
      "death_saves" (PyVal.obj (PyObj.deathSaves c.death_saves)))
      "currency" (PyVal.obj (PyObj.currencyObj c.currency)))
      "appearance" (PyVal.obj (PyObj.appearanceObj c.appearance)))
        = some (PyVal.list (c.attacks.map (fun a => PyVal.dict (attack_to_dict a)))) from rfl]
    simp only [attacks_conv_roundtrip, Option.map_some]
    rfl
  have h8 : convert_spellcasting (pyUpdate (pyUpdate (pyUpdate (pyUpdate (pyUpdate (pyUpdate (pyUpdate (to_serializable c)
      "ability_scores" (PyVal.obj (PyObj.abilityScores c.ability_scores)))
      "saving_throws" (PyVal.obj (PyObj.savingThrows c.saving_throws)))
      "skills" (PyVal.obj (PyObj.skillsObj c.skills)))
      "death_saves" (PyVal.obj (PyObj.deathSaves c.death_saves)))
      "currency" (PyVal.obj (PyObj.currencyObj c.currency)))
      "appearance" (PyVal.obj (PyObj.appearanceObj c.appearance)))
      "attacks" (PyVal.list (c.attacks.map (fun a => PyVal.obj (PyObj.attackObj a)))))
      = some (to_serializable_converted c) := by
    unfold convert_spellcasting
    rw [show List.lookup "spellcasting" (pyUpdate (pyUpdate (pyUpdate (pyUpdate (pyUpdate (pyUpdate (pyUpdate (to_serializable c)
      "ability_scores" (PyVal.obj (PyObj.abilityScores c.ability_scores)))
      "saving_throws" (PyVal.obj (PyObj.savingThrows c.saving_throws)))
      "skills" (PyVal.obj (PyObj.skillsObj c.skills)))
      "death_saves" (PyVal.obj (PyObj.deathSaves c.death_saves)))
      "currency" (PyVal.obj (PyObj.currencyObj c.currency)))
      "appearance" (PyVal.obj (PyObj.appearanceObj c.appearance)))
      "attacks" (PyVal.list (c.attacks.map (fun a => PyVal.obj (PyObj.attackObj a)))))
        = some (PyVal.dict (spellcasting_to_dict c.spellcasting)) from rfl]
    simp only [convert_slot_levels_to_dict, Option.some_bind,
      spellcasting_kwargs_roundtrip, Option.map_some]
    rfl
  unfold character_from_dict
  rw [h1, Option.some_bind, h2, Option.some_bind, h3, Option.some_bind,
    h4, Option.some_bind, h5, Option.some_bind, h6, Option.some_bind,
    h7, Option.some_bind, h8, Option.some_bind,
    characterOfKwargs_converted]
  rfl

/-- **C7.** Serializing any `Character` to the JSON-compatible nested
dict and deserializing it back with `character_from_dict` reproduces an
equal character, field for field. -/
theorem character_roundtrip (c : Character) :
    (character_from_dict (to_serializable c)).map Prod.snd = some c := by
  rw [character_from_dict_to_serializable]
  rfl


end DndSheet
